import Mathlib

/-!
Verification of the BoidNode flocking-simulator core against its
specification.  The C++ sources (`math_linear.h`, `memory_pool.h`,
`boid_thread.h`, `spatial_hash.h`, `simulation.h`) are shallowly embedded
below.  Conventions used throughout:

* `float` values are idealised as exact rationals/reals: the spatial hash
  (pure comparisons, floor/ceil and truncating casts) is embedded over `ℚ`
  so results are decidable, while the boid kernel (which calls `sqrtf`
  inside `v3::clamp` / `v3::normalize`) is embedded over `ℝ` with
  `Real.sqrt`.  Float literals such as `0.25f` denote the corresponding
  rational.
* `u32`/`u64` loop counters and bitsets are embedded as `ℕ`; bit tests use
  `&&&` (`Nat.land`).  The code never lets the embedded quantities reach
  `2^32`, except where a wrap is itself under scrutiny, which is noted.
* memory returned by the bump pools is uninitialised; the embedding passes
  the prior (garbage) contents of such arrays in explicitly as functions,
  so nothing about fresh memory is assumed silently.
* parallel loops whose iterations touch disjoint data (or commute, as the
  atomic counter increments do) are sequentialised in submission order.
-/

namespace BoidNode

/-! ### math_linear.h — vectors

`vec3`/`vec4` from `math_linear.h`, generic over the scalar field so the
same operations serve the `ℚ` hash embedding and the `ℝ` kernel embedding.
The 4th lane of `vec4` is SIMD padding; `v4::dot` does include it. -/

structure vec3 (α : Type) where
  x : α
  y : α
  z : α
deriving DecidableEq

structure vec4 (α : Type) where
  x : α
  y : α
  z : α
  w : α
deriving DecidableEq

/-- Component access `position.xyz` used by `simulation.h`. -/
def vec4.xyz {α : Type} (v : vec4 α) : vec3 α := ⟨v.x, v.y, v.z⟩

variable {α : Type} [LinearOrderedField α]

instance : Add (vec3 α) := ⟨fun a b => ⟨a.x + b.x, a.y + b.y, a.z + b.z⟩⟩

instance : Sub (vec3 α) := ⟨fun a b => ⟨a.x - b.x, a.y - b.y, a.z - b.z⟩⟩

instance : HMul (vec3 α) α (vec3 α) := ⟨fun v s => ⟨v.x * s, v.y * s, v.z * s⟩⟩

instance : Zero (vec3 α) := ⟨⟨0, 0, 0⟩⟩

instance : Sub (vec4 α) := ⟨fun a b => ⟨a.x - b.x, a.y - b.y, a.z - b.z, a.w - b.w⟩⟩

namespace v3

/-- Source `v3::dot` (scalar path). -/
def dot (a b : vec3 α) : α := a.x * b.x + a.y * b.y + a.z * b.z

/-- Source `v3::sq_mag`. -/
def sq_mag (v : vec3 α) : α := v.x * v.x + v.y * v.y + v.z * v.z

/-- Source `v3::clamp`: rescale `v` to length `max_length` when it is
longer.  `sqrtf` is idealised as `Real.sqrt`, so this is `ℝ`-only. -/
noncomputable def clamp (v : vec3 ℝ) (max_length : ℝ) : vec3 ℝ :=
  let len := Real.sqrt (v.x * v.x + v.y * v.y + v.z * v.z)
  if len > max_length then ⟨v.x / len * max_length, v.y / len * max_length, v.z / len * max_length⟩
  else v

/-- Source `v3::normalize`.  `HAS_AVX2` is set in every configuration that
builds this repository, so the compiled body is `normalize_avx2`: it
computes `len_sq = x·x + y·y + z·z`, returns `v` UNCHANGED when
`len_sq < 1e-6` (the division-by-zero guard), and otherwise multiplies each
lane by the reciprocal square root of `len_sq`.  The hardware `_mm_rsqrt_ps`
approximation is idealised as the exact `1 / Real.sqrt len_sq`, like
`sqrtf` elsewhere; the guard branch is kept exactly. -/
noncomputable def normalize (v : vec3 ℝ) : vec3 ℝ :=
  let len_sq := v.x * v.x + v.y * v.y + v.z * v.z
  if len_sq < 1e-6 then v
  else ⟨v.x * (1 / Real.sqrt len_sq), v.y * (1 / Real.sqrt len_sq),
    v.z * (1 / Real.sqrt len_sq)⟩

end v3

namespace v4

/-- Source `v4::dot` — all four lanes participate. -/
def dot (a b : vec4 α) : α := a.x * b.x + a.y * b.y + a.z * b.z + a.w * b.w

end v4

/-! ### memory_pool.h — the bump ("scratch") arena

`mpool::allocate` obtains the backing block from `_aligned_malloc(size, 32)`
(or `aligned_alloc(32, …)` / `posix_memalign(…, 32, …)`), so the base
address is 32-byte aligned.  `pool.base` stands for that address. -/

namespace mpool

structure memory_pool where
  base : ℕ
  size : ℕ
  offset : ℕ
deriving DecidableEq

/-- Source `mpool::allocate`: fresh pool, `offset = 0`.  The base address is
whatever the aligned allocator returned. -/
def allocate (base size_bytes : ℕ) : memory_pool := ⟨base, size_bytes, 0⟩

/-- Size rounding at the top of `mpool::get_bytes`:
`if (bytes % 32 != 0) bytes += 32 - bytes % 32`. -/
def round_bytes (bytes_to_get : ℕ) : ℕ :=
  if bytes_to_get % 32 ≠ 0 then bytes_to_get + (32 - bytes_to_get % 32) else bytes_to_get

/-- Source `mpool::get_bytes`: returns the current cursor address and bumps
the offset, or `none` (NULL) when the request does not fit — in which case
the offset is not advanced. -/
def get_bytes (pool : memory_pool) (bytes_to_get : ℕ) : Option ℕ × memory_pool :=
  let b := round_bytes bytes_to_get
  if pool.offset + b > pool.size then (none, pool)
  else (some (pool.base + pool.offset), { pool with offset := pool.offset + b })

/-- Source `mpool::reset`: rewind the cursor. -/
def reset (pool : memory_pool) : memory_pool := { pool with offset := 0 }

/-- Pointers handed out by a sequence of `get_bytes` calls (failed
acquisitions return NULL and hand out nothing). -/
def acquireAll (pool : memory_pool) : List ℕ → List ℕ
  | [] => []
  | n :: ns =>
    match get_bytes pool n with
    | (none, pool1) => acquireAll pool1 ns
    | (some ptr, pool1) => ptr :: acquireAll pool1 ns

end mpool

/-! ### boid_thread.h — the lock-free work queue -/

namespace thread_pool

/-- Source `work_data`: a work item.  The function pointer and payload
pointer are abstracted as numeric tokens; only item identity matters to the
queue. -/
structure work_data where
  func : ℕ
  data : ℕ
  priority : ℕ
deriving DecidableEq

/-- Source `work_queue`.  `items` is the ring-buffer array, indexed through
`index &&& mask`.  (The `items_processed`/`items_added` statistics counters
and the event signalling are irrelevant to the queue contents and are
omitted.) -/
structure work_queue where
  head : ℕ
  tail : ℕ
  size : ℕ
  mask : ℕ
  items : ℕ → work_data

/-- Source `queue_try_add`: claim `slot = (fetch_add(head,1)) & mask`, store
the item there, and return `true`.  There is no capacity check on this
path. -/
def queue_try_add (q : work_queue) (func data priority : ℕ) : Bool × work_queue :=
  let index := q.head
  let slot := index &&& q.mask
  (true,
    { q with
      head := q.head + 1
      items := Function.update q.items slot ⟨func, data, priority⟩ })

/-- Source `add_work`: forwards to `queue_try_add`; the
`assert(0 && "Failed to add work…")` branch runs only when `queue_try_add`
returns `false`.  Result `0` = success, with the updated queue. -/
def add_work (q : work_queue) (func data : ℕ) : ℕ × work_queue :=
  match queue_try_add q func data 0 with
  | (true, q1) => (0, q1)
  | (false, q1) => (4294967295, q1)

/-- Slot occupied by the ring-buffer entry for submission index `i`. -/
def slot_of (q : work_queue) (i : ℕ) : ℕ := i &&& q.mask

/-- A concrete full queue: capacity 2 (mask 1), two pending submissions
(indices 0 and 1, neither consumed), distinct pending items in the two
slots. -/
def qFull : work_queue :=
  ⟨2, 0, 2, 1, fun j => ⟨j + 1, 0, 0⟩⟩

end thread_pool

/-! ### spatial_hash.h — grid build and radius query

Embedded over `ℚ` (floats idealised as exact rationals).  C-specific
conventions: a `(u32)`/`(int)` cast of a non-negative float truncates, i.e.
is `Int.toNat ∘ Int.floor` here; the code only casts values already clamped
non-negative.  The hash's bump pool hands out uninitialised memory, so every
array the build writes into takes its prior contents ("garbage") as an
explicit function argument.  Degenerate grids (`grid_size = 0`, which the
source only produces when all positions coincide on an axis) are outside
every claim and the `u32` underflow of `grid_size - 1` is not modelled. -/

namespace spatial_hash

/-- Source `spatial_hash` struct.  `last_cell_index` is never read by
`search` and is omitted; the `pool` is represented by the explicit garbage
arguments to `build`. -/
structure spatial_hash where
  position_x : ℕ → ℚ
  position_y : ℕ → ℚ
  position_z : ℕ → ℚ
  original_ids : ℕ → ℕ
  cell_start : ℕ → ℕ
  cell_end : ℕ → ℕ
  cell_size : ℚ
  grid_size_x : ℕ
  grid_size_y : ℕ
  grid_size_z : ℕ
  num_positions : ℕ
  domain_min : vec4 ℚ
  domain_max : vec4 ℚ

/-- Prior contents of the pool memory each rebuild writes into: the initial
SoA copies (`i…`), the `bin_positions` temp arrays that the scatter fills
(`t…`), and the cell-range arrays beyond `num_cells` (`cs`/`ce`). -/
structure hash_garbage where
  ix : ℕ → ℚ
  iy : ℕ → ℚ
  iz : ℕ → ℚ
  iid : ℕ → ℕ
  tx : ℕ → ℚ
  ty : ℕ → ℚ
  tz : ℕ → ℚ
  tid : ℕ → ℕ
  cs : ℕ → ℕ
  ce : ℕ → ℕ

/-- All-zero pool contents (freshly zero-mapped pages). -/
def zero_garbage : hash_garbage :=
  ⟨fun _ => 0, fun _ => 0, fun _ => 0, fun _ => 0,
   fun _ => 0, fun _ => 0, fun _ => 0, fun _ => 0,
   fun _ => 0, fun _ => 0⟩

/-- One step of the AABB loop in `compute_domain` (the `w` lanes are not
compared). -/
def compute_domain_step (mm : vec4 ℚ × vec4 ℚ) (pos : vec4 ℚ) : vec4 ℚ × vec4 ℚ :=
  (⟨min mm.1.x pos.x, min mm.1.y pos.y, min mm.1.z pos.z, mm.1.w⟩,
   ⟨max mm.2.x pos.x, max mm.2.y pos.y, max mm.2.z pos.z, mm.2.w⟩)

/-- Source `compute_domain`: min/max are seeded from `positions[0]` and
folded over the rest.  (`compute_domain_mt` partitions the same reduction
over threads for `N ≥ 1024` and combines the partial AABBs; min/max
reduction is associative-commutative, so the result is identical and the
serial form is used.)  `N == 0` is rejected by the source; the `[]` case is
unreachable under every claim. -/
def compute_domain (positions : List (vec4 ℚ)) : vec4 ℚ × vec4 ℚ :=
  match positions with
  | [] => (⟨0, 0, 0, 0⟩, ⟨0, 0, 0, 0⟩)
  | p :: rest => rest.foldl compute_domain_step (p, p)

/-- Truncating `(u32)` cast of a non-negative float. -/
def u32_of_float (q : ℚ) : ℕ := (⌊q⌋).toNat

/-- Source `get_cell_coordinates`: shift by `domain_min`, divide by
`cell_size`, clamp below by 0 (`fmaxf`), truncate, clamp above to
`grid_size - 1`. -/
def get_cell_coordinates (h : spatial_hash) (pos : vec4 ℚ) : ℕ × ℕ × ℕ :=
  let shifted_x := pos.x - h.domain_min.x
  let shifted_y := pos.y - h.domain_min.y
  let shifted_z := pos.z - h.domain_min.z
  let cell_x := u32_of_float (max (shifted_x / h.cell_size) 0)
  let cell_y := u32_of_float (max (shifted_y / h.cell_size) 0)
  let cell_z := u32_of_float (max (shifted_z / h.cell_size) 0)
  (if cell_x < h.grid_size_x then cell_x else h.grid_size_x - 1,
   if cell_y < h.grid_size_y then cell_y else h.grid_size_y - 1,
   if cell_z < h.grid_size_z then cell_z else h.grid_size_z - 1)

/-- Source `get_cell_index` (the enabled `#if 1` linear branch; the Morton
and Hilbert branches are compiled out). -/
def get_cell_index (h : spatial_hash) (c : ℕ × ℕ × ℕ) : ℕ :=
  c.1 + c.2.1 * h.grid_size_x + c.2.2 * h.grid_size_x * h.grid_size_y

/-- Source `set_grid_sizes`: `cell_size = max_radius * 2.0f` and grid sizes
`ceil((domain_max - domain_min) / cell_size)`. -/
def set_grid_sizes (h : spatial_hash) (max_radius : ℚ) : spatial_hash :=
  let cs := max_radius * 2
  { h with
    cell_size := cs
    grid_size_x := (⌈(h.domain_max.x - h.domain_min.x) / cs⌉).toNat
    grid_size_y := (⌈(h.domain_max.y - h.domain_min.y) / cs⌉).toNat
    grid_size_z := (⌈(h.domain_max.z - h.domain_min.z) / cs⌉).toNat }

/-- Source `calc_num_cells`: linear index of `(gx, gy, gz)` plus one (an
over-allocation; every reachable cell index is below it). -/
def calc_num_cells (h : spatial_hash) (gx gy gz : ℕ) : ℕ :=
  get_cell_index h (gx, gy, gz) + 1

/-- Cell value of hash entry `i` as computed by
`bin_positions_countsvals_worker` from the (unpermuted) SoA copies; it is
stored in `cell_vals[i]` and re-read by the scatter. -/
def cell_val (h : spatial_hash) (i : ℕ) : ℕ :=
  get_cell_index h (get_cell_coordinates h ⟨h.position_x i, h.position_y i, h.position_z i, 1⟩)

/-- Cell occupancy counts after the (atomic-increment) count phase of
`bin_positions`; the 64 parallel jobs partition `[0, N)` and the increments
commute, so the counts equal this sequential fold. -/
def cell_counts_of (h : spatial_hash) : ℕ → ℕ :=
  (List.range h.num_positions).foldl
    (fun cnt i => Function.update cnt (cell_val h i) (cnt (cell_val h i) + 1))
    (fun _ => 0)

/-- Exclusive prefix sum written into `cell_start` by `bin_positions`:
`cell_start[i] = (i == 0) ? 0 : cell_start[i-1] + cell_counts[i-1]`. -/
def prefix_start (counts : ℕ → ℕ) : ℕ → ℕ
  | 0 => 0
  | i + 1 => prefix_start counts i + counts i

/-- Scatter-phase state: the live `cell_counts` array (counted down by
`InterlockedDecrement`) and the temp SoA arrays being filled. -/
structure bin_state where
  cell_counts : ℕ → ℕ
  temp_position_x : ℕ → ℚ
  temp_position_y : ℕ → ℚ
  temp_position_z : ℕ → ℚ
  temp_original_ids : ℕ → ℕ

/-- One iteration of the scatter loop in `bin_positions`:
`offset = InterlockedDecrement(&cell_counts[cell_id]) + 1` — the
post-decrement value plus one, i.e. the PRE-decrement count — and the entry
is stored at `cell_start[cell_id] + offset`.  (Writes beyond the `N`-entry
temp arrays land in adjacent pool memory; they are retained here as
function updates at those out-of-range indices, which `search` never
reads.) -/
def scatter_step (h : spatial_hash) (cs : ℕ → ℕ) (st : bin_state) (i : ℕ) : bin_state :=
  let cell_id := cell_val h i
  let offset := (st.cell_counts cell_id - 1) + 1
  let start := cs cell_id
  { cell_counts := Function.update st.cell_counts cell_id (st.cell_counts cell_id - 1)
    temp_position_x := Function.update st.temp_position_x (start + offset) (h.position_x i)
    temp_position_y := Function.update st.temp_position_y (start + offset) (h.position_y i)
    temp_position_z := Function.update st.temp_position_z (start + offset) (h.position_z i)
    temp_original_ids := Function.update st.temp_original_ids (start + offset) (h.original_ids i) }

/-- Source `bin_positions`: count cells, prefix-sum into
`cell_start`/`cell_end` (overwriting the `0xFFFFFFFF` sentinels for every
cell below `num_cells`, empty ones included), scatter in input order, then
swap the temp arrays in. -/
def bin_positions (h : spatial_hash) (num_cells : ℕ) (g : hash_garbage) : spatial_hash :=
  let counts := cell_counts_of h
  let cs : ℕ → ℕ := fun c => if c < num_cells then prefix_start counts c else g.cs c
  let ce : ℕ → ℕ := fun c => if c < num_cells then prefix_start counts c + counts c else g.ce c
  let final := (List.range h.num_positions).foldl (scatter_step h cs)
    ⟨counts, g.tx, g.ty, g.tz, g.tid⟩
  { h with
    position_x := final.temp_position_x
    position_y := final.temp_position_y
    position_z := final.temp_position_z
    original_ids := final.temp_original_ids
    cell_start := cs
    cell_end := ce }

/-- Source `build`: copy the positions into the SoA arrays with
`original_ids[i] = i`, compute the domain, set grid sizes and `num_cells`,
then `bin_positions`. -/
def build (cell_size : ℚ) (positions : List (vec4 ℚ)) (g : hash_garbage) : spatial_hash :=
  let N := positions.length
  let dom := compute_domain positions
  let h0 : spatial_hash :=
    { position_x := fun i => match positions[i]? with | some p => p.x | none => g.ix i
      position_y := fun i => match positions[i]? with | some p => p.y | none => g.iy i
      position_z := fun i => match positions[i]? with | some p => p.z | none => g.iz i
      original_ids := fun i => if i < N then i else g.iid i
      cell_start := g.cs
      cell_end := g.ce
      cell_size := cell_size
      grid_size_x := 0
      grid_size_y := 0
      grid_size_z := 0
      num_positions := N
      domain_min := dom.1
      domain_max := dom.2 }
  let h1 := set_grid_sizes h0 cell_size
  let num_cells := calc_num_cells h1 h1.grid_size_x h1.grid_size_y h1.grid_size_z
  bin_positions h1 num_cells g

/-- Source `rebuild`: reset the hash's pool and `build` from the new
positions.  The pool reset makes every array start from whatever the pool
memory currently holds, which is the `g` argument. -/
def rebuild (cell_size : ℚ) (positions : List (vec4 ℚ)) (g : hash_garbage) : spatial_hash :=
  build cell_size positions g

/-- Inner loop of `search` over one cell's `[cell_start, cell_end)` range.
The 8-wide AVX blocks, the scalar remainder and the staging-buffer flushes
emit exactly the in-order sequence of `original_ids[i]` whose squared
distance is `≤ radius²`; that net effect is taken as the definition. -/
def search_cell (h : spatial_hash) (position : vec4 ℚ) (radius_sq : ℚ)
    (acc : List ℕ) (cell_index : ℕ) : List ℕ :=
  let start := h.cell_start cell_index
  if start = 4294967295 then acc
  else
    (List.range' start (h.cell_end cell_index - start)).foldl
      (fun acc2 i =>
        let dx := h.position_x i - position.x
        let dy := h.position_y i - position.y
        let dz := h.position_z i - position.z
        if dx * dx + dy * dy + dz * dz ≤ radius_sq then acc2 ++ [h.original_ids i] else acc2)
      acc

/-- Source `search`: `none` models the early-error return for
`radius ≤ 0` (outputs untouched).  Cell bounds use
`offset_up = ceilf(radius / cell_size)` and
`offset_down = floorf(-radius / cell_size)`, clamped to the grid; the
triple loop visits cells in z-major order. -/
def search (h : spatial_hash) (position : vec4 ℚ) (radius : ℚ) : Option (List ℕ) :=
  if radius ≤ 0 then none
  else
    let radius_sq := radius * radius
    let inv_cell_size := 1 / h.cell_size
    let cell_coords := get_cell_coordinates h position
    let offset_up : ℚ := (⌈radius * inv_cell_size⌉ : ℤ)
    let offset_down : ℚ := (⌊-radius * inv_cell_size⌋ : ℤ)
    let min_x := (⌊max ((cell_coords.1 : ℚ) + offset_down) 0⌋).toNat
    let min_y := (⌊max ((cell_coords.2.1 : ℚ) + offset_down) 0⌋).toNat
    let min_z := (⌊max ((cell_coords.2.2 : ℚ) + offset_down) 0⌋).toNat
    let max_x := (⌊min ((cell_coords.1 : ℚ) + offset_up) ((h.grid_size_x - 1 : ℕ) : ℚ)⌋).toNat
    let max_y := (⌊min ((cell_coords.2.1 : ℚ) + offset_up) ((h.grid_size_y - 1 : ℕ) : ℚ)⌋).toNat
    let max_z := (⌊min ((cell_coords.2.2 : ℚ) + offset_up) ((h.grid_size_z - 1 : ℕ) : ℚ)⌋).toNat
    some ((List.range' min_z (max_z + 1 - min_z)).foldl
      (fun az z =>
        (List.range' min_y (max_y + 1 - min_y)).foldl
          (fun ay y =>
            (List.range' min_x (max_x + 1 - min_x)).foldl
              (fun ax x => search_cell h position radius_sq ax (get_cell_index h (x, y, z)))
              ay)
          az)
      [])

/-- Brute-force neighbor set, as computed by the ground-truth loop of the
repository's own `spatial_hash::test` (4-lane dot of the difference; the
`w` lanes cancel for like points). -/
def ground_truth (positions : List (vec4 ℚ)) (q : vec4 ℚ) (radius : ℚ) : List ℕ :=
  (List.range positions.length).filter fun i =>
    match positions[i]? with
    | some p => decide (v4.dot (p - q) (p - q) ≤ radius * radius)
    | none => false

/-- Concrete rebuild input for claims C1/C2: two agents, distinct cells
(actual cell size `2 · (1/2) = 1`, grid `3 × 1 × 1`), over zeroed pool
memory. -/
def example_positions : List (vec4 ℚ) := [⟨0, 0, 0, 1⟩, ⟨5/2, 1/2, 1/2, 1⟩]

/-- The hash produced by `rebuild(cell_size = 1/2)` on `example_positions`. -/
def example_hash : spatial_hash := rebuild (1/2) example_positions zero_garbage

end spatial_hash

/-! ### simulation.h — the boid kernel

Embedded over `ℝ`, since the velocity clamps call `sqrtf` (idealised as
`Real.sqrt`).  The spatial hash held in `sim_data::search_hash` is the
structure built by the PREVIOUS rebuild; `update_sim` only queries it, so
it is modelled by its query behaviour, a function from `(position, radius)`
to the returned index list.  The scratch-arena traffic for the
neighbour-index buffer and the chunk descriptors has no effect on the
simulation arrays and is not part of the state. -/

namespace simulation

def SIM_COMPONENT_SPATIAL : ℕ := 1

def SIM_COMPONENT_BOID : ℕ := 2

def BOID_TYPE_SEEK : ℕ := 1

def BOID_TYPE_FLEE : ℕ := 2

def BOID_TYPE_ALIGN : ℕ := 4

/-- Source `behavior_mask = BOID_TYPE_SEEK | BOID_TYPE_FLEE | BOID_TYPE_ALIGN`. -/
def behavior_mask : ℕ := BOID_TYPE_SEEK ||| BOID_TYPE_FLEE ||| BOID_TYPE_ALIGN

def g_max_vel : ℝ := 0.5

def g_min_vel : ℝ := 0.15

def g_max_acc : ℝ := 0.25

/-- Hard-coded rule radii at the top of `update_sim_block`. -/
def seek_radius : ℝ := 0.25

def flee_radius : ℝ := 0.15

def align_radius : ℝ := 0.25

/-- Source `sim_data`.  `search_hash` is the queryable spatial hash from
the previous rebuild (see the namespace comment). -/
structure sim_data where
  num_entities : ℕ
  components : ℕ → ℕ
  behaviours : ℕ → ℕ
  positions : ℕ → vec4 ℝ
  velocities : ℕ → vec3 ℝ
  time_step : ℝ
  current_time : ℝ
  num_iterations : ℕ
  search_hash : vec4 ℝ → ℝ → List ℕ

/-- Local accumulator state of `boid_process_neighbors` (the six locals
`num_*_neighbours` and `*_acc`). -/
structure neighbor_accum where
  num_seek_neighbours : ℕ
  num_flee_neighbours : ℕ
  num_align_neighbours : ℕ
  seek_acc : vec3 ℝ
  flee_acc : vec3 ℝ
  align_acc : vec3 ℝ

/-- The seek (cohesion) `if` block of the neighbour loop: accumulate the
difference when `distance_squared > 0 && distance_squared < seek_radius_sq`. -/
noncomputable def seek_branch (difference : vec3 ℝ) (distance_squared seek_radius_sq : ℝ)
    (st : neighbor_accum) : neighbor_accum :=
  if distance_squared > 0 ∧ distance_squared < seek_radius_sq then
    { st with
      seek_acc := st.seek_acc + difference
      num_seek_neighbours := st.num_seek_neighbours + 1 }
  else st

/-- The flee (separation) `if` block: inverse-square weighting with the
`+ 0.0001f` division guard. -/
noncomputable def flee_branch (difference : vec3 ℝ) (distance_squared flee_radius_sq : ℝ)
    (st : neighbor_accum) : neighbor_accum :=
  if distance_squared > 0 ∧ distance_squared < flee_radius_sq then
    { st with
      flee_acc := st.flee_acc + difference * (flee_radius_sq / (distance_squared + 0.0001))
      num_flee_neighbours := st.num_flee_neighbours + 1 }
  else st

/-- The align `if` block: accumulate the neighbour's velocity. -/
noncomputable def align_branch (neighbour_velocity : vec3 ℝ)
    (distance_squared align_radius_sq : ℝ) (st : neighbor_accum) : neighbor_accum :=
  if distance_squared > 0 ∧ distance_squared < align_radius_sq then
    { st with
      align_acc := st.align_acc + neighbour_velocity
      num_align_neighbours := st.num_align_neighbours + 1 }
  else st

/-- One iteration of the neighbour loop in `boid_process_neighbors`: skip
the self entry, then the three sequential radius-test blocks, each guarded
by `distance_squared > 0`. -/
noncomputable def process_neighbor_step (data : sim_data) (entity_id : ℕ) (current_position : vec3 ℝ)
    (seek_radius_sq flee_radius_sq align_radius_sq : ℝ)
    (st : neighbor_accum) (neighbor_idx : ℕ) : neighbor_accum :=
  if neighbor_idx = entity_id then st
  else
    let neighbour_position := (data.positions neighbor_idx).xyz
    let difference := neighbour_position - current_position
    let distance_squared := v3.dot difference difference
    align_branch (data.velocities neighbor_idx) distance_squared align_radius_sq
      (flee_branch difference distance_squared flee_radius_sq
        (seek_branch difference distance_squared seek_radius_sq st))

/-- The accumulator after the whole neighbour loop of
`boid_process_neighbors`. -/
noncomputable def neighbor_accum_of (entity_id : ℕ) (data : sim_data) (neighbour_ids : List ℕ)
    (sr fr ar : ℝ) : neighbor_accum :=
  let current_position := (data.positions entity_id).xyz
  neighbour_ids.foldl
    (process_neighbor_step data entity_id current_position (sr * sr) (fr * fr) (ar * ar))
    ⟨0, 0, 0, 0, 0, 0⟩

/-- Source `boid_process_neighbors` results `(seek, flee, align)`: each
out-parameter is written (averaged, and negated for flee) only when its
count is positive, otherwise the caller's zero initialisation stands. -/
noncomputable def boid_process_neighbors (entity_id : ℕ) (data : sim_data) (neighbour_ids : List ℕ)
    (sr fr ar : ℝ) : vec3 ℝ × vec3 ℝ × vec3 ℝ :=
  let st := neighbor_accum_of entity_id data neighbour_ids sr fr ar
  (if st.num_seek_neighbours > 0 then st.seek_acc * (1 / (st.num_seek_neighbours : ℝ)) else 0,
   if st.num_flee_neighbours > 0 then st.flee_acc * (-1 / (st.num_flee_neighbours : ℝ)) else 0,
   if st.num_align_neighbours > 0 then st.align_acc * (1 / (st.num_align_neighbours : ℝ)) else 0)

/-- Clamped acceleration of agent `i` in the first pass of
`update_sim_block`: fetch neighbours from the hash at `seek_radius`, run
`boid_process_neighbors`, sum the rule results selected by the behaviour
bits, and clamp to `g_max_acc`.  (The dead `seek_origin = seek_pos - …`
assignment inside the seek branch is never read and is omitted.) -/
noncomputable def boid_acceleration (data : sim_data) (i : ℕ) : vec3 ℝ :=
  let search_indices := data.search_hash (data.positions i) seek_radius
  let r :=
    if data.behaviours i &&& behavior_mask ≠ 0 then
      boid_process_neighbors i data search_indices seek_radius flee_radius align_radius
    else (0, 0, 0)
  let acceleration0 : vec3 ℝ := 0
  let acceleration1 := if data.behaviours i &&& BOID_TYPE_SEEK ≠ 0 then acceleration0 + r.1
    else acceleration0
  let acceleration2 := if data.behaviours i &&& BOID_TYPE_FLEE ≠ 0 then acceleration1 + r.2.1
    else acceleration1
  let acceleration3 := if data.behaviours i &&& BOID_TYPE_ALIGN ≠ 0 then acceleration2 + r.2.2
    else acceleration2
  v3.clamp acceleration3 g_max_acc

/-- Agent `i`'s velocity after the acceleration step and the `g_max_vel`
clamp, just before the minimum-speed check
(`data->velocities[i]` at line 299 of `simulation.h`). -/
noncomputable def velocity_pre_min (data : sim_data) (delta_time : ℝ) (i : ℕ) : vec3 ℝ :=
  v3.clamp (data.velocities i + boid_acceleration data i * delta_time) g_max_vel

/-- Agent `i`'s velocity as written by the first pass: the `g_max_vel`
clamp followed by the minimum-speed rescale
(`normalize(v) * g_min_vel` when `sq_mag(v) < min_vel_sq`). -/
noncomputable def boid_velocity_update (data : sim_data) (delta_time : ℝ) (i : ℕ) : vec3 ℝ :=
  if v3.sq_mag (velocity_pre_min data delta_time i) < g_min_vel * g_min_vel then
    v3.normalize (velocity_pre_min data delta_time i) * g_min_vel
  else velocity_pre_min data delta_time i

/-- One iteration of the first (velocity) pass of `update_sim_block`:
entities without `SIM_COMPONENT_SPATIAL` or without any active behaviour
bit are skipped. -/
noncomputable def phase1_step (data : sim_data) (delta_time : ℝ) (i : ℕ) : sim_data :=
  if data.components i &&& SIM_COMPONENT_SPATIAL = 0 then data
  else if data.behaviours i &&& behavior_mask = 0 then data
  else { data with velocities := Function.update data.velocities i (boid_velocity_update data delta_time i) }

/-- The first pass over `n` consecutive indices starting at `i`
(`for (u32 i = start_id; i < end_id; ++i)`). -/
noncomputable def run_phase1 (delta_time : ℝ) : sim_data → ℕ → ℕ → sim_data
  | data, _, 0 => data
  | data, i, n + 1 => run_phase1 delta_time (phase1_step data delta_time i) (i + 1) n

/-- One iteration of the second (position) pass:
`positions[i].xyz += velocities[i] * delta_time`, unconditionally; the `w`
lane is untouched. -/
noncomputable def phase2_step (data : sim_data) (delta_time : ℝ) (i : ℕ) : sim_data :=
  { data with
    positions := Function.update data.positions i
      (let p := data.positions i
       let q := p.xyz + data.velocities i * delta_time
       ⟨q.x, q.y, q.z, p.w⟩) }

/-- The second pass over `n` consecutive indices starting at `i`. -/
noncomputable def run_phase2 (delta_time : ℝ) : sim_data → ℕ → ℕ → sim_data
  | data, _, 0 => data
  | data, i, n + 1 => run_phase2 delta_time (phase2_step data delta_time i) (i + 1) n

/-- Source `update_sim_block`: first pass (velocities) then second pass
(positions) over the chunk `[start_id, end_id)`. -/
noncomputable def update_sim_block (data : sim_data) (delta_time : ℝ) (start_id end_id : ℕ) : sim_data :=
  run_phase2 delta_time (run_phase1 delta_time data start_id (end_id - start_id))
    start_id (end_id - start_id)

/-- Chunk list built by `update_sim`: `hw_threads * tasks_per_thread` work
orders, capped by the 1 MiB descriptor pool (`sizeof(sim_thread_data)` is
16 bytes on x64) and floored so each chunk has at least
`min_entities_per_task = 48` entities; the last chunk absorbs the
remainder. -/
def update_sim_chunks (num_entities hw_threads : ℕ) : List (ℕ × ℕ) :=
  let tasks_per_thread := 12
  let min_entities_per_task := 48
  let max_tasks := 1048576 / 16
  let n0 := hw_threads * tasks_per_thread
  let n1 := if n0 > max_tasks then max_tasks else n0
  let per0 := num_entities / n1
  let nw := if per0 < min_entities_per_task then
      let n2 := num_entities / min_entities_per_task
      if n2 = 0 then 1 else n2
    else n1
  let per := num_entities / nw
  (List.range nw).map fun i =>
    (i * per, if i = nw - 1 then num_entities else (i + 1) * per)

/-- Run the submitted chunk tasks.  Each task is
`sim_work_func`, which calls
`update_sim_block(data, data->time_step, start, end, …)` — note the
`delta_time` it passes is the `time_step` FIELD, not `update_sim`'s
argument.  Chunks touch disjoint index ranges in phase 1 and phase 2 writes
are per-index, so the single-thread FIFO order modelled here is one of the
schedules the pool can produce. -/
noncomputable def run_chunks (data : sim_data) (delta_time : ℝ) (chunks : List (ℕ × ℕ)) : sim_data :=
  chunks.foldl (fun d c => update_sim_block d delta_time c.1 c.2) data

/-- Source `update_sim`: advance `current_time` by `delta_time`, count the
iteration, build the chunk list and run every chunk — with
`data->time_step` as the integration step (see `run_chunks`).  The final
`spatial_hash::rebuild` writes only the hash (embedded separately over
`ℚ`), not the agent arrays, and is outside this state. -/
noncomputable def update_sim (data : sim_data) (delta_time : ℝ) (hw_threads : ℕ) : sim_data :=
  let data1 := { data with
    current_time := data.current_time + delta_time
    num_iterations := data.num_iterations + 1 }
  run_chunks data1 data.time_step (update_sim_chunks data.num_entities hw_threads)

/-- Modelled from the spec (claim C4's reference semantics): an update of
`[start_id, end_id)` in which every velocity update reads positions from
one snapshot taken before any position is written, followed by the position
pass.  The velocity recursion forces every read through `snap`. -/
noncomputable def snapshot_phase1 (snap : ℕ → vec4 ℝ) (delta_time : ℝ) :
    sim_data → ℕ → ℕ → sim_data
  | data, _, 0 => data
  | data, i, n + 1 =>
    snapshot_phase1 snap delta_time
      (phase1_step { data with positions := snap } delta_time i) (i + 1) n

/-- Modelled from the spec: the reference single-snapshot two-pass update
(claim C4). -/
noncomputable def snapshot_reference_update (data : sim_data) (delta_time : ℝ)
    (start_id end_id : ℕ) : sim_data :=
  let snap := data.positions
  run_phase2 delta_time (snapshot_phase1 snap delta_time data start_id (end_id - start_id))
    start_id (end_id - start_id)

/-- Concrete state: one boid (`SIM_COMPONENT_SPATIAL | SIM_COMPONENT_BOID`,
seek behaviour) at the origin with zero velocity; the hash (from the
previous rebuild) returns only the agent itself.  Used for claims C5/C6. -/
noncomputable def lone_boid : sim_data :=
  { num_entities := 1
    components := fun _ => SIM_COMPONENT_SPATIAL ||| SIM_COMPONENT_BOID
    behaviours := fun _ => BOID_TYPE_SEEK
    positions := fun _ => ⟨0, 0, 0, 1⟩
    velocities := fun _ => 0
    time_step := 1
    current_time := 0
    num_iterations := 0
    search_hash := fun _ _ => [0] }

/-- Concrete state: one agent with `SIM_COMPONENT_SPATIAL` but no active
behaviour bit, non-zero velocity.  Used for claim C10. -/
noncomputable def drifting_agent : sim_data :=
  { num_entities := 1
    components := fun _ => SIM_COMPONENT_SPATIAL
    behaviours := fun _ => 0
    positions := fun _ => ⟨1, 2, 3, 1⟩
    velocities := fun _ => ⟨0.3, 0, 0⟩
    time_step := 1
    current_time := 0
    num_iterations := 0
    search_hash := fun _ _ => [] }

/-- Concrete state for claim C3: two inert agents (no components, so both
passes leave velocities alone and positions advance by `v · dt`),
`time_step = 0.016` as set by `init_sim`, agent 0 moving at unit speed. -/
noncomputable def dt_probe : sim_data :=
  { num_entities := 2
    components := fun _ => 0
    behaviours := fun _ => 0
    positions := fun _ => ⟨0, 0, 0, 1⟩
    velocities := fun i => if i = 0 then ⟨1, 0, 0⟩ else 0
    time_step := 0.016
    current_time := 0
    num_iterations := 0
    search_hash := fun _ _ => [] }

/-- Concrete state for claim C4: 96 agents so that `update_sim` really
produces two chunks `[0,48)` and `[48,96)`; only agents 0 and 48 are live
(seek behaviour), 0.1 apart on the x-axis, inside each other's seek radius;
the hash from the previous rebuild reports exactly these two. -/
noncomputable def two_chunk_pair : sim_data :=
  { num_entities := 96
    components := fun i => if i = 0 ∨ i = 48 then SIM_COMPONENT_SPATIAL ||| SIM_COMPONENT_BOID else 0
    behaviours := fun i => if i = 0 ∨ i = 48 then BOID_TYPE_SEEK else 0
    positions := fun i => if i = 48 then ⟨0.1, 0, 0, 1⟩ else ⟨0, 0, 0, 1⟩
    velocities := fun _ => 0
    time_step := 1
    current_time := 0
    num_iterations := 0
    search_hash := fun _ _ => [0, 48] }

/-- Concrete state for claim C7: agent 1 is a distinct neighbour exactly
coincident with agent 0. -/
noncomputable def coincident_pair : sim_data :=
  { num_entities := 2
    components := fun _ => SIM_COMPONENT_SPATIAL ||| SIM_COMPONENT_BOID
    behaviours := fun _ => BOID_TYPE_SEEK
    positions := fun _ => ⟨0, 0, 0, 1⟩
    velocities := fun _ => 0
    time_step := 1
    current_time := 0
    num_iterations := 0
    search_hash := fun _ _ => [0, 1] }

end simulation

/-! ## Theorems -/

section VecLemmas

variable {α : Type} [LinearOrderedField α]

@[simp] theorem vec3.add_def (a b : vec3 α) :
    a + b = ⟨a.x + b.x, a.y + b.y, a.z + b.z⟩ := rfl

@[simp] theorem vec3.sub_def (a b : vec3 α) :
    a - b = ⟨a.x - b.x, a.y - b.y, a.z - b.z⟩ := rfl

@[simp] theorem vec3.smul_def (v : vec3 α) (s : α) :
    v * s = (⟨v.x * s, v.y * s, v.z * s⟩ : vec3 α) := rfl

@[simp] theorem vec3.zero_def : (0 : vec3 α) = ⟨0, 0, 0⟩ := rfl

@[simp] theorem vec4.xyz_def {β : Type} (v : vec4 β) : v.xyz = ⟨v.x, v.y, v.z⟩ := rfl

end VecLemmas

/-! ### Helper lemmas for the boid kernel -/

section SimHelpers

open simulation

/-- Evaluate `Real.sqrt` at a perfect square. -/
theorem sqrt_eval {a b : ℝ} (hb : 0 ≤ b) (hab : b * b = a) : Real.sqrt a = b := by
  rw [← hab, Real.sqrt_mul_self hb]

theorem sq_mag_nonneg (v : vec3 ℝ) : 0 ≤ v3.sq_mag v := by
  obtain ⟨x, y, z⟩ := v
  simp only [v3.sq_mag]
  exact add_nonneg (add_nonneg (mul_self_nonneg x) (mul_self_nonneg y)) (mul_self_nonneg z)

theorem sq_mag_eq_zero_iff (v : vec3 ℝ) : v3.sq_mag v = 0 ↔ v = 0 := by
  obtain ⟨x, y, z⟩ := v
  simp only [v3.sq_mag, vec3.zero_def, vec3.mk.injEq]
  constructor
  · intro h
    have hx : x * x = 0 := by nlinarith [mul_self_nonneg x, mul_self_nonneg y, mul_self_nonneg z]
    have hy : y * y = 0 := by nlinarith [mul_self_nonneg x, mul_self_nonneg y, mul_self_nonneg z]
    have hz : z * z = 0 := by nlinarith [mul_self_nonneg x, mul_self_nonneg y, mul_self_nonneg z]
    exact ⟨mul_self_eq_zero.mp hx, mul_self_eq_zero.mp hy, mul_self_eq_zero.mp hz⟩
  · rintro ⟨rfl, rfl, rfl⟩
    ring

theorem sq_mag_zero : v3.sq_mag (0 : vec3 ℝ) = 0 := by
  show v3.sq_mag ⟨0, 0, 0⟩ = 0
  norm_num [v3.sq_mag]

theorem norm_smul_eval (v : vec3 ℝ) (c : ℝ) (hc : 0 ≤ c) :
    Real.sqrt (v3.sq_mag (v * c)) = c * Real.sqrt (v3.sq_mag v) := by
  obtain ⟨x, y, z⟩ := v
  simp only [vec3.smul_def, v3.sq_mag]
  have h : x * c * (x * c) + y * c * (y * c) + z * c * (z * c) = c * c * (x * x + y * y + z * z) := by
    ring
  rw [h, Real.sqrt_mul (mul_self_nonneg c), Real.sqrt_mul_self hc]

/-- The `v3::clamp` result never exceeds the requested length bound. -/
theorem norm_clamp_le (v : vec3 ℝ) (m : ℝ) (hm : 0 ≤ m) :
    Real.sqrt (v3.sq_mag (v3.clamp v m)) ≤ m := by
  obtain ⟨x, y, z⟩ := v
  simp only [v3.clamp]
  by_cases h : Real.sqrt (x * x + y * y + z * z) > m
  · rw [if_pos h]
    have hL0 : 0 < Real.sqrt (x * x + y * y + z * z) := lt_of_le_of_lt hm h
    have hsq : v3.sq_mag (⟨x / Real.sqrt (x * x + y * y + z * z) * m,
        y / Real.sqrt (x * x + y * y + z * z) * m,
        z / Real.sqrt (x * x + y * y + z * z) * m⟩ : vec3 ℝ) =
        m / Real.sqrt (x * x + y * y + z * z) * (m / Real.sqrt (x * x + y * y + z * z)) *
          (x * x + y * y + z * z) := by
      simp only [v3.sq_mag]
      ring
    rw [hsq, Real.sqrt_mul (mul_self_nonneg _),
      Real.sqrt_mul_self (div_nonneg hm hL0.le)]
    rw [div_mul_cancel₀ m (ne_of_gt hL0)]

  · rw [if_neg h]
    simpa only [v3.sq_mag] using not_lt.mp h

/-- When the `len_sq < 1e-6` guard of the compiled `v3::normalize` fires,
the vector comes back unchanged — including every small NONZERO vector. -/
theorem normalize_subguard (v : vec3 ℝ) (h : v3.sq_mag v < 1e-6) :
    v3.normalize v = v := by
  obtain ⟨x, y, z⟩ := v
  simp only [v3.sq_mag] at h
  simp only [v3.normalize]
  rw [if_pos h]

/-- Norm of `v3::normalize` when the `len_sq < 1e-6` guard does not fire:
the rescale produces a unit vector. -/
theorem norm_normalize (v : vec3 ℝ) (hv : ¬ v3.sq_mag v < 1e-6) :
    Real.sqrt (v3.sq_mag (v3.normalize v)) = 1 := by
  have hs0 : 0 < v3.sq_mag v := lt_of_lt_of_le (by norm_num) (not_lt.mp hv)
  obtain ⟨x, y, z⟩ := v
  simp only [v3.sq_mag] at hs0 hv
  have hLpos : 0 < Real.sqrt (x * x + y * y + z * z) := Real.sqrt_pos.mpr hs0
  simp only [v3.normalize]
  rw [if_neg hv]
  have hsq : v3.sq_mag (⟨x * (1 / Real.sqrt (x * x + y * y + z * z)),
      y * (1 / Real.sqrt (x * x + y * y + z * z)),
      z * (1 / Real.sqrt (x * x + y * y + z * z))⟩ : vec3 ℝ) =
      (x * x + y * y + z * z) /
        (Real.sqrt (x * x + y * y + z * z) * Real.sqrt (x * x + y * y + z * z)) := by
    simp only [v3.sq_mag]
    field_simp
  rw [hsq, Real.mul_self_sqrt (le_of_lt hs0), div_self (ne_of_gt hs0), Real.sqrt_one]

theorem normalize_zero : v3.normalize 0 = 0 := by
  simp only [v3.normalize, vec3.zero_def]
  norm_num

theorem zero_smul_vec (c : ℝ) : (0 : vec3 ℝ) * c = 0 := by
  simp only [vec3.zero_def, vec3.smul_def]
  norm_num

/-- The velocity written by the first pass has norm at most `g_max_vel`,
and that norm is at least `g_min_vel` unless the pre-rescale velocity fell
under the `len_sq < 1e-6` guard of the compiled `normalize`, in which case
the written velocity is the tiny unrescaled vector times `g_min_vel`, of
norm below `g_min_vel · 10⁻³`. -/
theorem boid_velocity_update_envelope (d : sim_data) (dt : ℝ) (i : ℕ) :
    Real.sqrt (v3.sq_mag (boid_velocity_update d dt i)) ≤ g_max_vel ∧
      (g_min_vel ≤ Real.sqrt (v3.sq_mag (boid_velocity_update d dt i)) ∨
        Real.sqrt (v3.sq_mag (boid_velocity_update d dt i)) < g_min_vel * (1e-3)) := by
  have hmin_pos : (0 : ℝ) < g_min_vel := by norm_num [g_min_vel]
  have hmax : (0 : ℝ) ≤ g_max_vel := by norm_num [g_max_vel]
  have h2 : Real.sqrt (v3.sq_mag (velocity_pre_min d dt i)) ≤ g_max_vel := by
    unfold velocity_pre_min
    exact norm_clamp_le _ _ hmax
  unfold boid_velocity_update
  by_cases hmin : v3.sq_mag (velocity_pre_min d dt i) < g_min_vel * g_min_vel
  · rw [if_pos hmin]
    by_cases hg : v3.sq_mag (velocity_pre_min d dt i) < 1e-6
    · rw [normalize_subguard _ hg]
      have hnorm : Real.sqrt (v3.sq_mag (velocity_pre_min d dt i * g_min_vel)) =
          g_min_vel * Real.sqrt (v3.sq_mag (velocity_pre_min d dt i)) :=
        norm_smul_eval _ _ hmin_pos.le
      have hlt : Real.sqrt (v3.sq_mag (velocity_pre_min d dt i)) < 1e-3 := by
        calc Real.sqrt (v3.sq_mag (velocity_pre_min d dt i)) < Real.sqrt 1e-6 :=
              Real.sqrt_lt_sqrt (sq_mag_nonneg _) hg
          _ = 1e-3 := sqrt_eval (by norm_num) (by norm_num)
      constructor
      · rw [hnorm]
        calc g_min_vel * Real.sqrt (v3.sq_mag (velocity_pre_min d dt i)) ≤
              g_min_vel * 1e-3 := mul_le_mul_of_nonneg_left hlt.le hmin_pos.le
          _ ≤ g_max_vel := by norm_num [g_min_vel, g_max_vel]
      · right
        rw [hnorm]
        exact mul_lt_mul_of_pos_left hlt hmin_pos
    · have h1 : Real.sqrt (v3.sq_mag (v3.normalize (velocity_pre_min d dt i) * g_min_vel)) =
          g_min_vel := by
        rw [norm_smul_eval _ _ hmin_pos.le, norm_normalize _ hg, mul_one]
      rw [h1]
      exact ⟨by norm_num [g_min_vel, g_max_vel], Or.inl (le_refl _)⟩
  · rw [if_neg hmin]
    refine ⟨h2, Or.inl ?_⟩
    have hle : g_min_vel * g_min_vel ≤ v3.sq_mag (velocity_pre_min d dt i) := not_lt.mp hmin
    calc g_min_vel = Real.sqrt (g_min_vel * g_min_vel) :=
          (Real.sqrt_mul_self (by norm_num [g_min_vel])).symm
      _ ≤ Real.sqrt (v3.sq_mag (velocity_pre_min d dt i)) := Real.sqrt_le_sqrt hle

end SimHelpers

/-! ### Loop invariants of the two passes of `update_sim_block` -/

section SimLoops

open simulation

theorem phase1_step_components (d : sim_data) (dt : ℝ) (i : ℕ) :
    (phase1_step d dt i).components = d.components := by
  unfold phase1_step
  split
  · rfl
  · split <;> rfl

theorem phase1_step_behaviours (d : sim_data) (dt : ℝ) (i : ℕ) :
    (phase1_step d dt i).behaviours = d.behaviours := by
  unfold phase1_step
  split
  · rfl
  · split <;> rfl

theorem phase1_step_positions (d : sim_data) (dt : ℝ) (i : ℕ) :
    (phase1_step d dt i).positions = d.positions := by
  unfold phase1_step
  split
  · rfl
  · split <;> rfl

theorem phase1_step_search_hash (d : sim_data) (dt : ℝ) (i : ℕ) :
    (phase1_step d dt i).search_hash = d.search_hash := by
  unfold phase1_step
  split
  · rfl
  · split <;> rfl

theorem phase1_step_velocities_ne (d : sim_data) (dt : ℝ) (i j : ℕ) (h : j ≠ i) :
    (phase1_step d dt i).velocities j = d.velocities j := by
  unfold phase1_step
  split
  · rfl
  · split
    · rfl
    · exact Function.update_noteq h _ _

/-- A skipped agent (no `SPATIAL` component or no active behaviour bit)
leaves the state untouched. -/
theorem phase1_step_skip (d : sim_data) (dt : ℝ) (i : ℕ)
    (h : d.components i &&& SIM_COMPONENT_SPATIAL = 0 ∨ d.behaviours i &&& behavior_mask = 0) :
    phase1_step d dt i = d := by
  unfold phase1_step
  rcases h with h | h
  · rw [if_pos h]
  · by_cases hc : d.components i &&& SIM_COMPONENT_SPATIAL = 0
    · rw [if_pos hc]
    · rw [if_neg hc, if_pos h]

/-- An active agent's slot is overwritten with `boid_velocity_update`. -/
theorem phase1_step_velocities_active (d : sim_data) (dt : ℝ) (i : ℕ)
    (hc : d.components i &&& SIM_COMPONENT_SPATIAL ≠ 0)
    (hb : d.behaviours i &&& behavior_mask ≠ 0) :
    (phase1_step d dt i).velocities i = boid_velocity_update d dt i := by
  unfold phase1_step
  rw [if_neg hc, if_neg hb]
  exact Function.update_same i _ _

theorem run_phase1_components (dt : ℝ) : ∀ (n : ℕ) (d : sim_data) (i : ℕ),
    (run_phase1 dt d i n).components = d.components
  | 0, _, _ => rfl
  | n + 1, d, i =>
    (run_phase1_components dt n (phase1_step d dt i) (i + 1)).trans
      (phase1_step_components d dt i)

theorem run_phase1_behaviours (dt : ℝ) : ∀ (n : ℕ) (d : sim_data) (i : ℕ),
    (run_phase1 dt d i n).behaviours = d.behaviours
  | 0, _, _ => rfl
  | n + 1, d, i =>
    (run_phase1_behaviours dt n (phase1_step d dt i) (i + 1)).trans
      (phase1_step_behaviours d dt i)

/-- Phase 1 performs no position writes at all. -/
theorem run_phase1_positions (dt : ℝ) : ∀ (n : ℕ) (d : sim_data) (i : ℕ),
    (run_phase1 dt d i n).positions = d.positions
  | 0, _, _ => rfl
  | n + 1, d, i =>
    (run_phase1_positions dt n (phase1_step d dt i) (i + 1)).trans
      (phase1_step_positions d dt i)

theorem run_phase1_search_hash (dt : ℝ) : ∀ (n : ℕ) (d : sim_data) (i : ℕ),
    (run_phase1 dt d i n).search_hash = d.search_hash
  | 0, _, _ => rfl
  | n + 1, d, i =>
    (run_phase1_search_hash dt n (phase1_step d dt i) (i + 1)).trans
      (phase1_step_search_hash d dt i)

/-- Velocities of agents outside the chunk are untouched by phase 1. -/
theorem run_phase1_velocities_outside (dt : ℝ) : ∀ (n : ℕ) (d : sim_data) (i j : ℕ),
    (j < i ∨ i + n ≤ j) → (run_phase1 dt d i n).velocities j = d.velocities j
  | 0, _, _, _, _ => rfl
  | n + 1, d, i, j, h => by
    have hne : j ≠ i := by omega
    have h1 : j < i + 1 ∨ i + 1 + n ≤ j := by omega
    exact (run_phase1_velocities_outside dt n (phase1_step d dt i) (i + 1) j h1).trans
      (phase1_step_velocities_ne d dt i j hne)

/-- A skipped agent's velocity survives the whole first pass. -/
theorem run_phase1_velocities_skip (dt : ℝ) : ∀ (n : ℕ) (d : sim_data) (i j : ℕ),
    (d.components j &&& SIM_COMPONENT_SPATIAL = 0 ∨ d.behaviours j &&& behavior_mask = 0) →
    (run_phase1 dt d i n).velocities j = d.velocities j
  | 0, _, _, _, _ => rfl
  | n + 1, d, i, j, h => by
    by_cases hij : j = i
    · subst hij
      have hstep : phase1_step d dt j = d := phase1_step_skip d dt j h
      show (run_phase1 dt (phase1_step d dt j) (j + 1) n).velocities j = d.velocities j
      rw [hstep]
      exact run_phase1_velocities_skip dt n d (j + 1) j h
    · have h1 : (phase1_step d dt i).components j &&& SIM_COMPONENT_SPATIAL = 0 ∨
          (phase1_step d dt i).behaviours j &&& behavior_mask = 0 := by
        rw [phase1_step_components, phase1_step_behaviours]
        exact h
      exact (run_phase1_velocities_skip dt n (phase1_step d dt i) (i + 1) j h1).trans
        (phase1_step_velocities_ne d dt i j hij)

/-- An active agent inside the chunk ends phase 1 with a velocity of the
form `boid_velocity_update d' dt i` for the (intermediate) state `d'` in
which its slot was processed. -/
theorem run_phase1_velocities_active (dt : ℝ) : ∀ (n : ℕ) (d : sim_data) (i0 i : ℕ),
    i0 ≤ i → i < i0 + n →
    d.components i &&& SIM_COMPONENT_SPATIAL ≠ 0 → d.behaviours i &&& behavior_mask ≠ 0 →
    ∃ d' : sim_data, (run_phase1 dt d i0 n).velocities i = boid_velocity_update d' dt i
  | 0, _, _, _, h1, h2, _, _ => by omega
  | n + 1, d, i0, i, h1, h2, hc, hb => by
    rcases Nat.eq_or_lt_of_le h1 with heq | hlt
    · subst heq
      refine ⟨d, ?_⟩
      show (run_phase1 dt (phase1_step d dt i0) (i0 + 1) n).velocities i0 = _
      rw [run_phase1_velocities_outside dt n (phase1_step d dt i0) (i0 + 1) i0 (by omega)]
      exact phase1_step_velocities_active d dt i0 hc hb
    · have hc1 : (phase1_step d dt i0).components i &&& SIM_COMPONENT_SPATIAL ≠ 0 := by
        rw [phase1_step_components]
        exact hc
      have hb1 : (phase1_step d dt i0).behaviours i &&& behavior_mask ≠ 0 := by
        rw [phase1_step_behaviours]
        exact hb
      exact run_phase1_velocities_active dt n (phase1_step d dt i0) (i0 + 1) i hlt
        (by omega) hc1 hb1

/-- If every agent of the range is skipped, phase 1 is the identity. -/
theorem run_phase1_all_skip (dt : ℝ) : ∀ (n : ℕ) (d : sim_data) (i : ℕ),
    (∀ j, i ≤ j → j < i + n →
      d.components j &&& SIM_COMPONENT_SPATIAL = 0 ∨ d.behaviours j &&& behavior_mask = 0) →
    run_phase1 dt d i n = d
  | 0, _, _, _ => rfl
  | n + 1, d, i, h => by
    have hstep : phase1_step d dt i = d := phase1_step_skip d dt i (h i (le_refl i) (by omega))
    show run_phase1 dt (phase1_step d dt i) (i + 1) n = d
    rw [hstep]
    exact run_phase1_all_skip dt n d (i + 1) (fun j hj1 hj2 => h j (by omega) (by omega))

theorem phase2_step_velocities (d : sim_data) (dt : ℝ) (i : ℕ) :
    (phase2_step d dt i).velocities = d.velocities := rfl

theorem phase2_step_components (d : sim_data) (dt : ℝ) (i : ℕ) :
    (phase2_step d dt i).components = d.components := rfl

theorem phase2_step_behaviours (d : sim_data) (dt : ℝ) (i : ℕ) :
    (phase2_step d dt i).behaviours = d.behaviours := rfl

theorem phase2_step_search_hash (d : sim_data) (dt : ℝ) (i : ℕ) :
    (phase2_step d dt i).search_hash = d.search_hash := rfl

theorem phase2_step_positions_ne (d : sim_data) (dt : ℝ) (i j : ℕ) (h : j ≠ i) :
    (phase2_step d dt i).positions j = d.positions j := by
  unfold phase2_step
  exact Function.update_noteq h _ _

theorem phase2_step_positions_self (d : sim_data) (dt : ℝ) (i : ℕ) :
    (phase2_step d dt i).positions i =
      ⟨(d.positions i).x + (d.velocities i).x * dt,
       (d.positions i).y + (d.velocities i).y * dt,
       (d.positions i).z + (d.velocities i).z * dt,
       (d.positions i).w⟩ := by
  unfold phase2_step
  simp only [Function.update_same, vec4.xyz_def, vec3.smul_def, vec3.add_def]

/-- Phase 2 never writes velocities. -/
theorem run_phase2_velocities (dt : ℝ) : ∀ (n : ℕ) (d : sim_data) (i : ℕ),
    (run_phase2 dt d i n).velocities = d.velocities
  | 0, _, _ => rfl
  | n + 1, d, i =>
    (run_phase2_velocities dt n (phase2_step d dt i) (i + 1)).trans
      (phase2_step_velocities d dt i)

theorem run_phase2_components (dt : ℝ) : ∀ (n : ℕ) (d : sim_data) (i : ℕ),
    (run_phase2 dt d i n).components = d.components
  | 0, _, _ => rfl
  | n + 1, d, i =>
    (run_phase2_components dt n (phase2_step d dt i) (i + 1)).trans
      (phase2_step_components d dt i)

theorem run_phase2_behaviours (dt : ℝ) : ∀ (n : ℕ) (d : sim_data) (i : ℕ),
    (run_phase2 dt d i n).behaviours = d.behaviours
  | 0, _, _ => rfl
  | n + 1, d, i =>
    (run_phase2_behaviours dt n (phase2_step d dt i) (i + 1)).trans
      (phase2_step_behaviours d dt i)

theorem run_phase2_search_hash (dt : ℝ) : ∀ (n : ℕ) (d : sim_data) (i : ℕ),
    (run_phase2 dt d i n).search_hash = d.search_hash
  | 0, _, _ => rfl
  | n + 1, d, i =>
    (run_phase2_search_hash dt n (phase2_step d dt i) (i + 1)).trans
      (phase2_step_search_hash d dt i)

theorem run_phase2_positions_outside (dt : ℝ) : ∀ (n : ℕ) (d : sim_data) (i j : ℕ),
    (j < i ∨ i + n ≤ j) → (run_phase2 dt d i n).positions j = d.positions j
  | 0, _, _, _, _ => rfl
  | n + 1, d, i, j, h => by
    have hne : j ≠ i := by omega
    have h1 : j < i + 1 ∨ i + 1 + n ≤ j := by omega
    exact (run_phase2_positions_outside dt n (phase2_step d dt i) (i + 1) j h1).trans
      (phase2_step_positions_ne d dt i j hne)

/-- Inside the chunk, phase 2 advances every position by `velocity · dt`,
unconditionally, using the velocities present at entry to the pass. -/
theorem run_phase2_positions_mem (dt : ℝ) : ∀ (n : ℕ) (d : sim_data) (i0 j : ℕ),
    i0 ≤ j → j < i0 + n →
    (run_phase2 dt d i0 n).positions j =
      ⟨(d.positions j).x + (d.velocities j).x * dt,
       (d.positions j).y + (d.velocities j).y * dt,
       (d.positions j).z + (d.velocities j).z * dt,
       (d.positions j).w⟩
  | 0, _, _, _, h1, h2 => by omega
  | n + 1, d, i0, j, h1, h2 => by
    rcases Nat.eq_or_lt_of_le h1 with heq | hlt
    · subst heq
      show (run_phase2 dt (phase2_step d dt i0) (i0 + 1) n).positions i0 = _
      rw [run_phase2_positions_outside dt n (phase2_step d dt i0) (i0 + 1) i0 (by omega)]
      exact phase2_step_positions_self d dt i0
    · have hpne := phase2_step_positions_ne d dt i0 j (by omega)
      have hv : (phase2_step d dt i0).velocities j = d.velocities j := rfl
      show (run_phase2 dt (phase2_step d dt i0) (i0 + 1) n).positions j = _
      rw [run_phase2_positions_mem dt n (phase2_step d dt i0) (i0 + 1) j hlt (by omega),
        hpne, hv]

end SimLoops

/-! ### Shared evaluation lemmas for the kernel claims -/

section SimShared

open simulation

/-- If the velocity entering the minimum-speed check is the zero vector,
the written velocity is exactly zero: the compiled `v3::normalize` returns
the zero vector unchanged (its `len_sq < 1e-6` guard fires at `0`) and
scaling it by `g_min_vel` keeps it zero. -/
theorem boid_velocity_update_zero_of_pre_zero (d : sim_data) (dt : ℝ) (i : ℕ)
    (h : velocity_pre_min d dt i = 0) : boid_velocity_update d dt i = 0 := by
  unfold boid_velocity_update
  rw [h, if_pos (by rw [sq_mag_zero]; norm_num [g_min_vel]), normalize_zero,
    zero_smul_vec]

/-- Concrete evaluation: the lone isolated boid accumulates no force, so
the velocity reaching the minimum-speed check is zero. -/
theorem lone_boid_pre_min_zero : velocity_pre_min lone_boid 1 0 = 0 := by
  simp only [velocity_pre_min, boid_acceleration, boid_process_neighbors, neighbor_accum_of,
    process_neighbor_step, lone_boid, behavior_mask, BOID_TYPE_SEEK, BOID_TYPE_FLEE,
    BOID_TYPE_ALIGN, SIM_COMPONENT_SPATIAL, SIM_COMPONENT_BOID, List.foldl,
    v3.clamp, v3.dot, v3.sq_mag, vec4.xyz_def, vec3.add_def, vec3.sub_def, vec3.smul_def,
    vec3.zero_def, g_max_acc, g_max_vel]
  norm_num [Real.sqrt_zero]

/-- The velocity the first pass writes for the lone isolated boid is
exactly zero. -/
theorem lone_boid_block_velocity_zero :
    (update_sim_block lone_boid 1 0 1).velocities 0 = 0 := by
  unfold update_sim_block
  rw [run_phase2_velocities 1 (1 - 0) _ 0]
  show (phase1_step lone_boid 1 0).velocities 0 = 0
  rw [phase1_step_velocities_active lone_boid 1 0 (by decide) (by decide)]
  exact boid_velocity_update_zero_of_pre_zero lone_boid 1 0 lone_boid_pre_min_zero

end SimShared

/-! ### Characterisation of the seek accumulation (claim C7) -/

section SeekAccum

open simulation

theorem vec3_add_assoc (a b c : vec3 ℝ) : a + b + c = a + (b + c) := by
  simp [vec3.add_def, add_assoc]

theorem vec3_add_zero (a : vec3 ℝ) : a + 0 = a := by
  cases a
  simp [vec3.add_def, vec3.zero_def]

theorem vec3_zero_add (a : vec3 ℝ) : 0 + a = a := by
  cases a
  simp [vec3.add_def, vec3.zero_def]

theorem vec3_foldl_add (g : ℕ → vec3 ℝ) : ∀ (l : List ℕ) (x y : vec3 ℝ),
    l.foldl (fun acc j => acc + g j) (x + y) = x + l.foldl (fun acc j => acc + g j) y
  | [], _, _ => rfl
  | j :: l, x, y => by
    show l.foldl _ (x + y + g j) = x + l.foldl _ (y + g j)
    rw [vec3_add_assoc]
    exact vec3_foldl_add g l x (y + g j)

theorem vec3_foldl_out (g : ℕ → vec3 ℝ) (l : List ℕ) (x : vec3 ℝ) :
    l.foldl (fun acc j => acc + g j) x = x + l.foldl (fun acc j => acc + g j) 0 := by
  conv_lhs => rw [show x = x + 0 from (vec3_add_zero x).symm]
  exact vec3_foldl_add g l x 0

theorem flee_branch_num_seek (diff : vec3 ℝ) (q f : ℝ) (st : neighbor_accum) :
    (flee_branch diff q f st).num_seek_neighbours = st.num_seek_neighbours := by
  unfold flee_branch
  split <;> rfl

theorem flee_branch_seek_acc (diff : vec3 ℝ) (q f : ℝ) (st : neighbor_accum) :
    (flee_branch diff q f st).seek_acc = st.seek_acc := by
  unfold flee_branch
  split <;> rfl

theorem align_branch_num_seek (nv : vec3 ℝ) (q a : ℝ) (st : neighbor_accum) :
    (align_branch nv q a st).num_seek_neighbours = st.num_seek_neighbours := by
  unfold align_branch
  split <;> rfl

theorem align_branch_seek_acc (nv : vec3 ℝ) (q a : ℝ) (st : neighbor_accum) :
    (align_branch nv q a st).seek_acc = st.seek_acc := by
  unfold align_branch
  split <;> rfl

theorem seek_branch_num_seek (diff : vec3 ℝ) (q s : ℝ) (st : neighbor_accum) :
    (seek_branch diff q s st).num_seek_neighbours =
      st.num_seek_neighbours + (if q > 0 ∧ q < s then 1 else 0) := by
  by_cases hc : q > 0 ∧ q < s <;> simp [seek_branch, hc]

theorem seek_branch_seek_acc (diff : vec3 ℝ) (q s : ℝ) (st : neighbor_accum) :
    (seek_branch diff q s st).seek_acc =
      (if q > 0 ∧ q < s then st.seek_acc + diff else st.seek_acc) := by
  by_cases hc : q > 0 ∧ q < s <;> simp [seek_branch, hc]

theorem process_step_num_seek (d : sim_data) (eid : ℕ) (cp : vec3 ℝ) (s f a : ℝ)
    (st : neighbor_accum) (j : ℕ) :
    (process_neighbor_step d eid cp s f a st j).num_seek_neighbours =
      st.num_seek_neighbours +
        (if j ≠ eid ∧ v3.dot ((d.positions j).xyz - cp) ((d.positions j).xyz - cp) > 0 ∧
            v3.dot ((d.positions j).xyz - cp) ((d.positions j).xyz - cp) < s
         then 1 else 0) := by
  by_cases hj : j = eid
  · simp [process_neighbor_step, hj]
  · simp only [process_neighbor_step, if_neg hj]
    rw [align_branch_num_seek, flee_branch_num_seek, seek_branch_num_seek]
    simp [hj]

theorem process_step_seek_acc (d : sim_data) (eid : ℕ) (cp : vec3 ℝ) (s f a : ℝ)
    (st : neighbor_accum) (j : ℕ) :
    (process_neighbor_step d eid cp s f a st j).seek_acc =
      (if j ≠ eid ∧ v3.dot ((d.positions j).xyz - cp) ((d.positions j).xyz - cp) > 0 ∧
          v3.dot ((d.positions j).xyz - cp) ((d.positions j).xyz - cp) < s
       then st.seek_acc + ((d.positions j).xyz - cp) else st.seek_acc) := by
  by_cases hj : j = eid
  · simp [process_neighbor_step, hj]
  · simp only [process_neighbor_step, if_neg hj]
    rw [align_branch_seek_acc, flee_branch_seek_acc, seek_branch_seek_acc]
    simp [hj]

theorem neighbor_fold_num_seek (d : sim_data) (eid : ℕ) (cp : vec3 ℝ) (s f a : ℝ) :
    ∀ (ns : List ℕ) (st : neighbor_accum),
      (ns.foldl (process_neighbor_step d eid cp s f a) st).num_seek_neighbours =
        st.num_seek_neighbours + ns.countP (fun j => decide (j ≠ eid ∧
          v3.dot ((d.positions j).xyz - cp) ((d.positions j).xyz - cp) > 0 ∧
          v3.dot ((d.positions j).xyz - cp) ((d.positions j).xyz - cp) < s))
  | [], st => by simp
  | j :: ns, st => by
    show (ns.foldl _ (process_neighbor_step d eid cp s f a st j)).num_seek_neighbours = _
    rw [neighbor_fold_num_seek d eid cp s f a ns (process_neighbor_step d eid cp s f a st j),
      process_step_num_seek, List.countP_cons]
    simp only [decide_eq_true_eq]
    by_cases hc : j ≠ eid ∧
        v3.dot ((d.positions j).xyz - cp) ((d.positions j).xyz - cp) > 0 ∧
        v3.dot ((d.positions j).xyz - cp) ((d.positions j).xyz - cp) < s
    · simp only [if_pos hc]
      omega
    · simp only [if_neg hc]
      omega

theorem neighbor_fold_seek_acc (d : sim_data) (eid : ℕ) (cp : vec3 ℝ) (s f a : ℝ) :
    ∀ (ns : List ℕ) (st : neighbor_accum),
      (ns.foldl (process_neighbor_step d eid cp s f a) st).seek_acc =
        st.seek_acc + (ns.filter (fun j => decide (j ≠ eid ∧
            v3.dot ((d.positions j).xyz - cp) ((d.positions j).xyz - cp) > 0 ∧
            v3.dot ((d.positions j).xyz - cp) ((d.positions j).xyz - cp) < s))).foldl
          (fun acc j => acc + ((d.positions j).xyz - cp)) 0
  | [], st => by simp [vec3_add_zero]
  | j :: ns, st => by
    show (ns.foldl _ (process_neighbor_step d eid cp s f a st j)).seek_acc = _
    rw [neighbor_fold_seek_acc d eid cp s f a ns (process_neighbor_step d eid cp s f a st j),
      process_step_seek_acc]
    by_cases hc : j ≠ eid ∧
        v3.dot ((d.positions j).xyz - cp) ((d.positions j).xyz - cp) > 0 ∧
        v3.dot ((d.positions j).xyz - cp) ((d.positions j).xyz - cp) < s
    · rw [if_pos hc, List.filter_cons_of_pos (by simpa using hc), List.foldl_cons, vec3_zero_add]
      conv_rhs => rw [vec3_foldl_out]
      rw [← vec3_add_assoc]
    · rw [if_neg hc, List.filter_cons_of_neg (by simpa using hc)]

end SeekAccum

/-! ### Chunk composition and snapshot semantics (claims C3 and C4) -/

section ChunkLemmas

open simulation

/-- An active agent's step, as a whole-state equation. -/
theorem phase1_step_active (d : sim_data) (dt : ℝ) (i : ℕ)
    (hc : d.components i &&& SIM_COMPONENT_SPATIAL ≠ 0)
    (hb : d.behaviours i &&& behavior_mask ≠ 0) :
    phase1_step d dt i =
      { d with velocities := Function.update d.velocities i (boid_velocity_update d dt i) } := by
  unfold phase1_step
  rw [if_neg hc, if_neg hb]

/-- When exactly one agent `k` of the range is active, the whole first pass
reduces to `k`'s step, evaluated on the entry state. -/
theorem run_phase1_single_active (dt : ℝ) : ∀ (n : ℕ) (d : sim_data) (i0 k : ℕ),
    i0 ≤ k → k < i0 + n →
    d.components k &&& SIM_COMPONENT_SPATIAL ≠ 0 →
    d.behaviours k &&& behavior_mask ≠ 0 →
    (∀ j, i0 ≤ j → j < i0 + n → j ≠ k →
      d.components j &&& SIM_COMPONENT_SPATIAL = 0 ∨ d.behaviours j &&& behavior_mask = 0) →
    run_phase1 dt d i0 n =
      { d with velocities := Function.update d.velocities k (boid_velocity_update d dt k) }
  | 0, _, _, _, h1, h2, _, _, _ => by omega
  | n + 1, d, i0, k, h1, h2, hc, hb, hother => by
    rcases Nat.eq_or_lt_of_le h1 with heq | hlt
    · subst heq
      show run_phase1 dt (phase1_step d dt i0) (i0 + 1) n = _
      rw [phase1_step_active d dt i0 hc hb]
      apply run_phase1_all_skip
      intro j hj1 hj2
      exact hother j (by omega) (by omega) (by omega)
    · show run_phase1 dt (phase1_step d dt i0) (i0 + 1) n = _
      rw [phase1_step_skip d dt i0 (hother i0 (le_refl i0) (by omega) (by omega))]
      exact run_phase1_single_active dt n d (i0 + 1) k hlt (by omega) hc hb
        (fun j hj1 hj2 hjk => hother j (by omega) (by omega) hjk)

/-- Splitting the first pass over a concatenated range. -/
theorem run_phase1_append (dt : ℝ) : ∀ (m n : ℕ) (d : sim_data) (i : ℕ),
    run_phase1 dt d i (m + n) = run_phase1 dt (run_phase1 dt d i m) (i + m) n
  | 0, n, d, i => by
    rw [Nat.zero_add]
    rfl
  | m + 1, n, d, i => by
    rw [show m + 1 + n = (m + n) + 1 from by omega]
    show run_phase1 dt (phase1_step d dt i) (i + 1) (m + n) = _
    rw [run_phase1_append dt m n (phase1_step d dt i) (i + 1)]
    show run_phase1 dt (run_phase1 dt (phase1_step d dt i) (i + 1) m) (i + 1 + m) n =
      run_phase1 dt (run_phase1 dt (phase1_step d dt i) (i + 1) m) (i + (m + 1)) n
    rw [show i + 1 + m = i + (m + 1) from by omega]

/-- The snapshot-reference velocity pass agrees with the real one as long
as the state's positions equal the snapshot — which phase 1 maintains,
because it never writes positions. -/
theorem snapshot_phase1_eq (dt : ℝ) : ∀ (n : ℕ) (snap : ℕ → vec4 ℝ) (d : sim_data) (i : ℕ),
    d.positions = snap → snapshot_phase1 snap dt d i n = run_phase1 dt d i n
  | 0, _, _, _, _ => rfl
  | n + 1, snap, d, i, h => by
    show snapshot_phase1 snap dt (phase1_step { d with positions := snap } dt i) (i + 1) n = _
    have hd : ({ d with positions := snap } : sim_data) = d := by rw [← h]
    rw [hd]
    exact snapshot_phase1_eq dt n snap (phase1_step d dt i) (i + 1)
      ((phase1_step_positions d dt i).trans h)

/-- Each chunk's two-pass run coincides with the spec's single-snapshot
reference update taken at that chunk's entry state. -/
theorem block_eq_snapshot (d : sim_data) (dt : ℝ) (a b : ℕ) :
    update_sim_block d dt a b = snapshot_reference_update d dt a b := by
  unfold update_sim_block snapshot_reference_update
  show _ = run_phase2 dt (snapshot_phase1 d.positions dt d a (b - a)) a (b - a)
  rw [snapshot_phase1_eq dt (b - a) d.positions d a rfl]

end ChunkLemmas

/-! ### Concrete kernel evaluations for the two-chunk pair (claim C4) -/

section PairEval

open simulation

/-- Agent 0's first-pass velocity when both agents still sit at their
pre-update positions: seek towards the neighbour 0.1 ahead on x, then the
minimum-speed rescale to 0.15. -/
theorem pair_agent0_velocity (d : sim_data)
    (hsearch : d.search_hash = fun _ _ => [0, 48])
    (hb : d.behaviours 0 = 1)
    (hp0 : d.positions 0 = ⟨0, 0, 0, 1⟩)
    (hp48 : d.positions 48 = ⟨0.1, 0, 0, 1⟩)
    (hv0 : d.velocities 0 = 0) :
    boid_velocity_update d 1 0 = ⟨0.15, 0, 0⟩ := by
  have h100 : Real.sqrt 100 = 10 := sqrt_eval (by norm_num) (by norm_num)
  have h400 : Real.sqrt 400 = 20 := sqrt_eval (by norm_num) (by norm_num)
  simp only [boid_velocity_update, velocity_pre_min, boid_acceleration, boid_process_neighbors,
    neighbor_accum_of, process_neighbor_step, seek_branch, flee_branch, align_branch,
    hsearch, hb, hp0, hp48, hv0, behavior_mask, BOID_TYPE_SEEK, BOID_TYPE_FLEE, BOID_TYPE_ALIGN,
    List.foldl, seek_radius, flee_radius, align_radius, g_max_acc, g_max_vel, g_min_vel,
    v3.clamp, v3.normalize, v3.dot, v3.sq_mag, vec4.xyz_def, vec3.add_def, vec3.sub_def,
    vec3.smul_def, vec3.zero_def]
  norm_num [h100, h400]

/-- Agent 48's first-pass velocity in the chunked schedule: it reads agent
0's position ALREADY advanced to 0.15 by chunk `[0,48)`'s position pass, so
the seek difference is `+0.05` and the rescaled velocity points towards
positive x. -/
theorem pair_agent48_after_move (d : sim_data)
    (hsearch : d.search_hash = fun _ _ => [0, 48])
    (hb : d.behaviours 48 = 1)
    (hp0 : d.positions 0 = ⟨0.15, 0, 0, 1⟩)
    (hp48 : d.positions 48 = ⟨0.1, 0, 0, 1⟩)
    (hv48 : d.velocities 48 = 0) :
    boid_velocity_update d 1 48 = ⟨0.15, 0, 0⟩ := by
  have h100 : Real.sqrt 100 = 10 := sqrt_eval (by norm_num) (by norm_num)
  have h400 : Real.sqrt 400 = 20 := sqrt_eval (by norm_num) (by norm_num)
  simp only [boid_velocity_update, velocity_pre_min, boid_acceleration, boid_process_neighbors,
    neighbor_accum_of, process_neighbor_step, seek_branch, flee_branch, align_branch,
    hsearch, hb, hp0, hp48, hv48, behavior_mask, BOID_TYPE_SEEK, BOID_TYPE_FLEE, BOID_TYPE_ALIGN,
    List.foldl, seek_radius, flee_radius, align_radius, g_max_acc, g_max_vel, g_min_vel,
    v3.clamp, v3.normalize, v3.dot, v3.sq_mag, vec4.xyz_def, vec3.add_def, vec3.sub_def,
    vec3.smul_def, vec3.zero_def]
  norm_num [h100, h400]

/-- Agent 48's first-pass velocity under the snapshot reference: it reads
agent 0's OLD position, the seek difference is `−0.1` and the rescaled
velocity points towards negative x. -/
theorem pair_agent48_snapshot (d : sim_data)
    (hsearch : d.search_hash = fun _ _ => [0, 48])
    (hb : d.behaviours 48 = 1)
    (hp0 : d.positions 0 = ⟨0, 0, 0, 1⟩)
    (hp48 : d.positions 48 = ⟨0.1, 0, 0, 1⟩)
    (hv48 : d.velocities 48 = 0) :
    boid_velocity_update d 1 48 = ⟨-0.15, 0, 0⟩ := by
  have h100 : Real.sqrt 100 = 10 := sqrt_eval (by norm_num) (by norm_num)
  have h400 : Real.sqrt 400 = 20 := sqrt_eval (by norm_num) (by norm_num)
  simp only [boid_velocity_update, velocity_pre_min, boid_acceleration, boid_process_neighbors,
    neighbor_accum_of, process_neighbor_step, seek_branch, flee_branch, align_branch,
    hsearch, hb, hp0, hp48, hv48, behavior_mask, BOID_TYPE_SEEK, BOID_TYPE_FLEE, BOID_TYPE_ALIGN,
    List.foldl, seek_radius, flee_radius, align_radius, g_max_acc, g_max_vel, g_min_vel,
    v3.clamp, v3.normalize, v3.dot, v3.sq_mag, vec4.xyz_def, vec3.add_def, vec3.sub_def,
    vec3.smul_def, vec3.zero_def]
  norm_num [h100, h400]

/-- Running the two chunks `[0,48)` and `[48,96)` back-to-back (the FIFO
single-thread schedule of the submitted tasks) ends with agent 48 moving in
POSITIVE x: its phase 1 ran after chunk 1's phase 2 had already advanced
agent 0's position past it. -/
theorem pair_chunked_eval (d : sim_data)
    (hcomp : d.components = two_chunk_pair.components)
    (hbehav : d.behaviours = two_chunk_pair.behaviours)
    (hpos : d.positions = two_chunk_pair.positions)
    (hvel : d.velocities = two_chunk_pair.velocities)
    (hsearch : d.search_hash = two_chunk_pair.search_hash) :
    (update_sim_block (update_sim_block d 1 0 48) 1 48 96).velocities 48 = ⟨0.15, 0, 0⟩ := by
  have hc0 : d.components 0 &&& SIM_COMPONENT_SPATIAL ≠ 0 := by rw [hcomp]; decide
  have hb0 : d.behaviours 0 &&& behavior_mask ≠ 0 := by rw [hbehav]; decide
  have hskip1 : ∀ j, 0 ≤ j → j < 0 + 48 → j ≠ 0 →
      d.components j &&& SIM_COMPONENT_SPATIAL = 0 ∨ d.behaviours j &&& behavior_mask = 0 := by
    intro j hj1 hj2 hj0
    left
    rw [hcomp]
    have hne : ¬ (j = 0 ∨ j = 48) := by omega
    simp [two_chunk_pair, hne]
  have hph1 : run_phase1 1 d 0 48 =
      { d with velocities := Function.update d.velocities 0 (boid_velocity_update d 1 0) } :=
    run_phase1_single_active 1 48 d 0 0 (le_refl 0) (by omega) hc0 hb0 hskip1
  have hV0 : boid_velocity_update d 1 0 = ⟨0.15, 0, 0⟩ :=
    pair_agent0_velocity d (by rw [hsearch]; rfl)
      (by rw [hbehav]; norm_num [two_chunk_pair, BOID_TYPE_SEEK])
      (by rw [hpos]; norm_num [two_chunk_pair, BOID_TYPE_SEEK])
      (by rw [hpos]; norm_num [two_chunk_pair, BOID_TYPE_SEEK])
      (by rw [hvel]; rfl)
  have hblock1 : update_sim_block d 1 0 48 =
      run_phase2 1 ({ d with
        velocities := Function.update d.velocities 0 (boid_velocity_update d 1 0) }) 0 48 := by
    unfold update_sim_block
    rw [show (48 : ℕ) - 0 = 48 from rfl, hph1]
  have hs1c : (update_sim_block d 1 0 48).components = d.components := by
    rw [hblock1, run_phase2_components]
  have hs1b : (update_sim_block d 1 0 48).behaviours = d.behaviours := by
    rw [hblock1, run_phase2_behaviours]
  have hs1s : (update_sim_block d 1 0 48).search_hash = d.search_hash := by
    rw [hblock1, run_phase2_search_hash]
  have hs1v48 : (update_sim_block d 1 0 48).velocities 48 = 0 := by
    rw [hblock1, run_phase2_velocities]
    show Function.update d.velocities 0 (boid_velocity_update d 1 0) 48 = 0
    rw [Function.update_noteq (by omega), hvel]
    rfl
  have hs1p48 : (update_sim_block d 1 0 48).positions 48 = ⟨0.1, 0, 0, 1⟩ := by
    rw [hblock1, run_phase2_positions_outside 1 48 _ 0 48 (by omega)]
    show d.positions 48 = _
    rw [hpos]
    norm_num [two_chunk_pair, BOID_TYPE_SEEK]
  have hs1p0 : (update_sim_block d 1 0 48).positions 0 = ⟨0.15, 0, 0, 1⟩ := by
    rw [hblock1, run_phase2_positions_mem 1 48 _ 0 0 (le_refl 0) (by omega)]
    show (⟨(d.positions 0).x +
        (Function.update d.velocities 0 (boid_velocity_update d 1 0) 0).x * 1,
      (d.positions 0).y + (Function.update d.velocities 0 (boid_velocity_update d 1 0) 0).y * 1,
      (d.positions 0).z + (Function.update d.velocities 0 (boid_velocity_update d 1 0) 0).z * 1,
      (d.positions 0).w⟩ : vec4 ℝ) = _
    rw [Function.update_same, hV0]
    rw [show d.positions 0 = ⟨0, 0, 0, 1⟩ from by rw [hpos]; norm_num [two_chunk_pair, BOID_TYPE_SEEK]]
    norm_num
  have hc48 : (update_sim_block d 1 0 48).components 48 &&& SIM_COMPONENT_SPATIAL ≠ 0 := by
    rw [hs1c, hcomp]
    decide
  have hb48 : (update_sim_block d 1 0 48).behaviours 48 &&& behavior_mask ≠ 0 := by
    rw [hs1b, hbehav]
    decide
  have hskip2 : ∀ j, 48 ≤ j → j < 48 + 48 → j ≠ 48 →
      (update_sim_block d 1 0 48).components j &&& SIM_COMPONENT_SPATIAL = 0 ∨
        (update_sim_block d 1 0 48).behaviours j &&& behavior_mask = 0 := by
    intro j hj1 hj2 hj48
    left
    rw [hs1c, hcomp]
    have hne : ¬ (j = 0 ∨ j = 48) := by omega
    simp [two_chunk_pair, hne]
  have houter : run_phase1 1 (update_sim_block d 1 0 48) 48 48 =
      { (update_sim_block d 1 0 48) with
        velocities := Function.update (update_sim_block d 1 0 48).velocities 48
          (boid_velocity_update (update_sim_block d 1 0 48) 1 48) } :=
    run_phase1_single_active 1 48 _ 48 48 (le_refl 48) (by omega) hc48 hb48 hskip2
  have hB : boid_velocity_update (update_sim_block d 1 0 48) 1 48 = ⟨0.15, 0, 0⟩ :=
    pair_agent48_after_move _ (by rw [hs1s, hsearch]; rfl)
      (by rw [hs1b, hbehav]; norm_num [two_chunk_pair, BOID_TYPE_SEEK])
      hs1p0 hs1p48 hs1v48
  show (run_phase2 1 (run_phase1 1 (update_sim_block d 1 0 48) 48 (96 - 48)) 48
    (96 - 48)).velocities 48 = _
  rw [run_phase2_velocities, show (96 : ℕ) - 48 = 48 from rfl, houter]
  show Function.update (update_sim_block d 1 0 48).velocities 48
    (boid_velocity_update (update_sim_block d 1 0 48) 1 48) 48 = _
  rw [Function.update_same, hB]

/-- Under the spec's single-snapshot reference semantics, agent 48 reads
agent 0's OLD position and ends the update moving in NEGATIVE x. -/
theorem pair_snapshot_eval :
    (snapshot_reference_update two_chunk_pair 1 0 96).velocities 48 = ⟨-0.15, 0, 0⟩ := by
  have hc0 : two_chunk_pair.components 0 &&& SIM_COMPONENT_SPATIAL ≠ 0 := by decide
  have hb0 : two_chunk_pair.behaviours 0 &&& behavior_mask ≠ 0 := by decide
  have hskip1 : ∀ j, 0 ≤ j → j < 0 + 48 → j ≠ 0 →
      two_chunk_pair.components j &&& SIM_COMPONENT_SPATIAL = 0 ∨
        two_chunk_pair.behaviours j &&& behavior_mask = 0 := by
    intro j hj1 hj2 hj0
    left
    have hne : ¬ (j = 0 ∨ j = 48) := by omega
    simp [two_chunk_pair, hne]
  have hinner : run_phase1 1 two_chunk_pair 0 48 =
      { two_chunk_pair with
        velocities := Function.update two_chunk_pair.velocities 0
          (boid_velocity_update two_chunk_pair 1 0) } :=
    run_phase1_single_active 1 48 two_chunk_pair 0 0 (le_refl 0) (by omega) hc0 hb0 hskip1
  have hc48 : ({ two_chunk_pair with
      velocities := Function.update two_chunk_pair.velocities 0
        (boid_velocity_update two_chunk_pair 1 0) } : sim_data).components 48 &&&
      SIM_COMPONENT_SPATIAL ≠ 0 := by decide
  have hb48 : ({ two_chunk_pair with
      velocities := Function.update two_chunk_pair.velocities 0
        (boid_velocity_update two_chunk_pair 1 0) } : sim_data).behaviours 48 &&&
      behavior_mask ≠ 0 := by decide
  have hskip2 : ∀ j, 48 ≤ j → j < 48 + 48 → j ≠ 48 →
      ({ two_chunk_pair with
        velocities := Function.update two_chunk_pair.velocities 0
          (boid_velocity_update two_chunk_pair 1 0) } : sim_data).components j &&&
          SIM_COMPONENT_SPATIAL = 0 ∨
        ({ two_chunk_pair with
          velocities := Function.update two_chunk_pair.velocities 0
            (boid_velocity_update two_chunk_pair 1 0) } : sim_data).behaviours j &&&
          behavior_mask = 0 := by
    intro j hj1 hj2 hj48
    left
    have hne : ¬ (j = 0 ∨ j = 48) := by omega
    simp [two_chunk_pair, hne]
  have houter : run_phase1 1 ({ two_chunk_pair with
      velocities := Function.update two_chunk_pair.velocities 0
        (boid_velocity_update two_chunk_pair 1 0) }) 48 48 =
      { ({ two_chunk_pair with
          velocities := Function.update two_chunk_pair.velocities 0
            (boid_velocity_update two_chunk_pair 1 0) } : sim_data) with
        velocities := Function.update
          ({ two_chunk_pair with
            velocities := Function.update two_chunk_pair.velocities 0
              (boid_velocity_update two_chunk_pair 1 0) } : sim_data).velocities 48
          (boid_velocity_update ({ two_chunk_pair with
            velocities := Function.update two_chunk_pair.velocities 0
              (boid_velocity_update two_chunk_pair 1 0) }) 1 48) } :=
    run_phase1_single_active 1 48 _ 48 48 (le_refl 48) (by omega) hc48 hb48 hskip2
  have hB : boid_velocity_update ({ two_chunk_pair with
      velocities := Function.update two_chunk_pair.velocities 0
        (boid_velocity_update two_chunk_pair 1 0) }) 1 48 = ⟨-0.15, 0, 0⟩ :=
    pair_agent48_snapshot _ rfl
      (by norm_num [two_chunk_pair, BOID_TYPE_SEEK])
      (by norm_num [two_chunk_pair, BOID_TYPE_SEEK])
      (by norm_num [two_chunk_pair, BOID_TYPE_SEEK])
      (by
        show Function.update two_chunk_pair.velocities 0
          (boid_velocity_update two_chunk_pair 1 0) 48 = 0
        rw [Function.update_noteq (by omega)]
        rfl)
  rw [← block_eq_snapshot]
  show (run_phase2 1 (run_phase1 1 two_chunk_pair 0 (96 - 0)) 0 (96 - 0)).velocities 48 = _
  rw [run_phase2_velocities, show (96 : ℕ) - 0 = 48 + 48 from rfl,
    run_phase1_append 1 48 48 two_chunk_pair 0, hinner,
    show (0 : ℕ) + 48 = 48 from rfl, houter]
  show Function.update
    ({ two_chunk_pair with
      velocities := Function.update two_chunk_pair.velocities 0
        (boid_velocity_update two_chunk_pair 1 0) } : sim_data).velocities 48
    (boid_velocity_update ({ two_chunk_pair with
      velocities := Function.update two_chunk_pair.velocities 0
        (boid_velocity_update two_chunk_pair 1 0) }) 1 48) 48 = _
  rw [Function.update_same, hB]

end PairEval

/-! ### Claims C1 and C2 — spatial-hash rebuild is broken by an off-by-one

The scatter in `bin_positions` computes
`offset = InterlockedDecrement(&cell_counts[cell_id]) + 1`.
`InterlockedDecrement` returns the decremented value, so `offset` is the
PRE-decrement count, ranging over `count … 1` instead of `count-1 … 0`;
entries land at `[cell_start+1, cell_start+count]` rather than
`[cell_start, cell_start+count)`.  Each cell's first-scattered entry is
written one past its range (the globally last one past the `N`-entry
arrays), slot `cell_start` of the first non-empty cell keeps whatever the
pool held, and the reordered `original_ids` is not a permutation.  This
contradicts the repository's own `spatial_hash::test`, which validates
`search` against the brute-force neighbour set after `init` and after
`rebuild`, and the spec's step 6 ("a slot offset within the cell's
range"). -/

/-- Claim C1, failing input: after `rebuild(cell_size = 1/2)` of positions
`(0,0,0)` and `(5/2,1/2,1/2)`, querying at the second agent's own position
with radius `2/5 > 0` returns the empty set, while the brute-force
neighbour set (the ground-truth loop of `spatial_hash::test`) is `{1}`: the
scatter misplaced agent 1 outside every cell range. -/
theorem search_misses_neighbor_after_rebuild :
    spatial_hash.search spatial_hash.example_hash ⟨5/2, 1/2, 1/2, 1⟩ (2/5) = some [] ∧
      spatial_hash.ground_truth spatial_hash.example_positions ⟨5/2, 1/2, 1/2, 1⟩ (2/5) = [1] ∧
      (0 : ℚ) < 2/5 := by
  with_unfolding_all decide

/-- Claim C2, failing input: after the same rebuild, no reordered slot
`k < N = 2` holds `original_ids[k] = 1` (agent 1 was scattered to slot 2,
past the arrays), so `original_ids` is not a permutation of `{0, 1}`; and
agent 1's own cell is `2` with range `[1, 2)`, yet slot 1 holds agent 0 —
the scatter did not write agent 1 inside its own cell's range. -/
theorem original_ids_not_permutation_after_rebuild :
    (¬ ∃ k, k < 2 ∧ spatial_hash.example_hash.original_ids k = 1) ∧
      spatial_hash.get_cell_index spatial_hash.example_hash
          (spatial_hash.get_cell_coordinates spatial_hash.example_hash ⟨5/2, 1/2, 1/2, 1⟩) = 2 ∧
      spatial_hash.example_hash.cell_start 2 = 1 ∧
      spatial_hash.example_hash.cell_end 2 = 2 ∧
      spatial_hash.example_hash.original_ids 1 = 0 := by
  with_unfolding_all decide

/-! ### Claim C8 — scratch-arena alignment

The spec claims every `get_bytes` return is 64-byte aligned.  The code
allocates the block with 32-byte alignment and rounds sizes to multiples of
32, so returns are only guaranteed 32-byte aligned: starting from even a
64-byte-aligned base, two one-byte acquisitions return addresses 32 bytes
apart, which cannot both be 64-byte aligned. -/

/-- Claim C8, counterexample: from a pool whose base 64 is itself 64-byte
aligned, acquiring 1 byte twice returns addresses 64 and 96, and 96 is not
64-byte aligned. -/
theorem get_bytes_not_64_aligned :
    mpool.acquireAll (mpool.allocate 64 256) [1, 1] = [64, 96] ∧ ¬ (64 ∣ 96) := by
  decide

/-- Claim C8, amended: every pointer returned by the scratch arena's
`get_bytes` is 32-byte aligned, for every sequence of acquisitions of
arbitrary sizes, given that the backing block base is 32-byte aligned (the
`_aligned_malloc(size, 32)` contract) and the cursor is at a 32-byte
multiple (as after `allocate` or `reset`). -/
theorem get_bytes_32_aligned (pool : mpool.memory_pool) (sizes : List ℕ)
    (hbase : 32 ∣ pool.base) (hoff : 32 ∣ pool.offset) :
    ∀ p ∈ mpool.acquireAll pool sizes, 32 ∣ p := by
  induction sizes generalizing pool with
  | nil => intro p hp; simp [mpool.acquireAll] at hp
  | cons n ns ih =>
    intro p hp
    have hround : 32 ∣ mpool.round_bytes n := by
      unfold mpool.round_bytes
      split <;> omega
    unfold mpool.acquireAll at hp
    unfold mpool.get_bytes at hp
    by_cases hfit : pool.offset + mpool.round_bytes n > pool.size
    · simp only [hfit, if_pos] at hp
      exact ih pool hbase hoff p hp
    · simp only [hfit, if_neg, not_false_iff] at hp
      rcases List.mem_cons.mp hp with h | h
      · subst h; exact Nat.dvd_add hbase hoff
      · exact ih { pool with offset := pool.offset + mpool.round_bytes n }
          hbase (Nat.dvd_add hoff hround) p h

/-- Witness for `get_bytes_32_aligned` at the concrete pool of the
counterexample. -/
theorem get_bytes_32_aligned_witness :
    (32 ∣ (mpool.allocate 64 256).base ∧ 32 ∣ (mpool.allocate 64 256).offset) ∧
      ∀ p ∈ mpool.acquireAll (mpool.allocate 64 256) [1, 1], 32 ∣ p :=
  ⟨⟨by decide, by decide⟩, get_bytes_32_aligned (mpool.allocate 64 256) [1, 1] (by decide) (by decide)⟩

/-! ### Claim C9 — work-queue overflow

The spec claims a submit on a full ring is a fatal error and never
overwrites a pending slot.  `queue_try_add` has no capacity check at all:
it unconditionally claims `head & mask`, stores the item and returns
`true`; with `head − tail == size` that slot is exactly the oldest pending
item's slot, which is silently overwritten (the `assert` in `add_work` is
unreachable). -/

/-- Claim C9, counterexample: on the full queue `qFull`
(`head − tail = size = 2`), `queue_try_add` succeeds (returns `true`) and
replaces the pending, not-yet-consumed item stored at the tail's slot. -/
theorem queue_try_add_overwrites_when_full :
    thread_pool.qFull.head = thread_pool.qFull.tail + thread_pool.qFull.size ∧
      (thread_pool.queue_try_add thread_pool.qFull 7 8 0).1 = true ∧
      (thread_pool.queue_try_add thread_pool.qFull 7 8 0).2.items
          (thread_pool.slot_of thread_pool.qFull thread_pool.qFull.tail) ≠
        thread_pool.qFull.items (thread_pool.slot_of thread_pool.qFull thread_pool.qFull.tail) := by
  refine ⟨rfl, rfl, ?_⟩
  decide

/-- Claim C9, amended: `queue_try_add` always reports success, and whenever
the ring already holds `size` pending items (`head = tail + size`, with the
power-of-two size and `mask = size − 1` established by `start_thread_pool`),
the slot it writes is precisely the slot of the oldest pending item. -/
theorem queue_try_add_full_claims_tail_slot (q : thread_pool.work_queue) (f d p k : ℕ)
    (hsz : q.size = 2 ^ k) (hmask : q.mask = q.size - 1)
    (hfull : q.head = q.tail + q.size) :
    (thread_pool.queue_try_add q f d p).1 = true ∧
      thread_pool.slot_of q q.head = thread_pool.slot_of q q.tail := by
  refine ⟨rfl, ?_⟩
  unfold thread_pool.slot_of
  rw [hmask, hsz, hfull, hsz, Nat.and_pow_two_sub_one_eq_mod, Nat.and_pow_two_sub_one_eq_mod,
    Nat.add_mod_right]

/-- Witness for `queue_try_add_full_claims_tail_slot` on the concrete full
queue `qFull`. -/
theorem queue_try_add_full_claims_tail_slot_witness :
    (thread_pool.qFull.size = 2 ^ 1 ∧ thread_pool.qFull.mask = thread_pool.qFull.size - 1 ∧
        thread_pool.qFull.head = thread_pool.qFull.tail + thread_pool.qFull.size) ∧
      (thread_pool.queue_try_add thread_pool.qFull 7 8 0).1 = true ∧
        thread_pool.slot_of thread_pool.qFull thread_pool.qFull.head =
          thread_pool.slot_of thread_pool.qFull thread_pool.qFull.tail :=
  ⟨⟨by decide, by decide, by decide⟩,
    queue_try_add_full_claims_tail_slot thread_pool.qFull 7 8 0 1 (by decide) (by decide) (by decide)⟩

/-! ### Claim C5 — velocity envelope

The spec claims `v_min ≤ ‖velocity‖ ≤ v_max` after `update` for every agent
with an active behaviour bit.  The compiled minimum-speed rescale
`normalize(v) * g_min_vel` is `v * g_min_vel` whenever `normalize`'s
`len_sq < 1e-6` guard fires — on the zero vector and on every velocity of
norm below `10⁻³` — so an isolated boid with zero (or tiny) velocity never
reaches `v_min`.  The envelope also silently assumes
`SIM_COMPONENT_SPATIAL`, without which the first pass skips the agent
entirely.  What does hold: the written norm is at most `v_max`, and is at
least `v_min` unless the pre-rescale velocity fell under the guard, leaving
a norm below `v_min · 10⁻³`. -/

/-- Claim C5, counterexample: the lone isolated boid (`SPATIAL | BOID`
components, seek behaviour active, zero velocity) still has velocity zero —
hence speed `0 < v_min = 0.15` — after `update_sim_block` covers it. -/
theorem velocity_below_min_after_update :
    (simulation.update_sim_block simulation.lone_boid 1 0 1).velocities 0 = 0 ∧
      Real.sqrt (v3.sq_mag
          ((simulation.update_sim_block simulation.lone_boid 1 0 1).velocities 0)) <
        simulation.g_min_vel ∧
      simulation.lone_boid.components 0 &&& simulation.SIM_COMPONENT_SPATIAL ≠ 0 ∧
      simulation.lone_boid.behaviours 0 &&& simulation.behavior_mask ≠ 0 := by
  refine ⟨lone_boid_block_velocity_zero, ?_, by decide, by decide⟩
  rw [lone_boid_block_velocity_zero, sq_mag_zero, Real.sqrt_zero]
  norm_num [simulation.g_min_vel]

/-- Claim C5, amended: after the update, every agent of the chunk that has
the `SIM_COMPONENT_SPATIAL` component and at least one seek/flee/align
behaviour bit has velocity of norm at most `v_max = 0.5`, and that norm is
at least `v_min = 0.15` UNLESS the velocity entering the minimum-speed
rescale fell under the `len_sq < 1e-6` guard of the compiled `normalize`
(zero and near-zero velocities), in which case the written norm stays below
`v_min · 10⁻³ = 1.5·10⁻⁴` — for every starting state and every `dt`. -/
theorem velocity_envelope_or_subguard (d : simulation.sim_data) (dt : ℝ) (a b i : ℕ)
    (h1 : a ≤ i) (h2 : i < b)
    (hc : d.components i &&& simulation.SIM_COMPONENT_SPATIAL ≠ 0)
    (hb : d.behaviours i &&& simulation.behavior_mask ≠ 0) :
    Real.sqrt (v3.sq_mag ((simulation.update_sim_block d dt a b).velocities i)) ≤
        simulation.g_max_vel ∧
      (simulation.g_min_vel ≤
          Real.sqrt (v3.sq_mag ((simulation.update_sim_block d dt a b).velocities i)) ∨
        Real.sqrt (v3.sq_mag ((simulation.update_sim_block d dt a b).velocities i)) <
          simulation.g_min_vel * (1e-3)) := by
  unfold simulation.update_sim_block
  rw [run_phase2_velocities dt (b - a) _ a]
  obtain ⟨d1, hd1⟩ := run_phase1_velocities_active dt (b - a) d a i h1 (by omega) hc hb
  rw [hd1]
  exact boid_velocity_update_envelope d1 dt i

/-- Witness for `velocity_envelope_or_subguard` at the lone isolated boid. -/
theorem velocity_envelope_or_subguard_witness :
    ((0 : ℕ) ≤ 0 ∧ (0 : ℕ) < 1 ∧
        simulation.lone_boid.components 0 &&& simulation.SIM_COMPONENT_SPATIAL ≠ 0 ∧
        simulation.lone_boid.behaviours 0 &&& simulation.behavior_mask ≠ 0) ∧
      (Real.sqrt (v3.sq_mag
            ((simulation.update_sim_block simulation.lone_boid 1 0 1).velocities 0)) ≤
          simulation.g_max_vel ∧
        (simulation.g_min_vel ≤
            Real.sqrt (v3.sq_mag
              ((simulation.update_sim_block simulation.lone_boid 1 0 1).velocities 0)) ∨
          Real.sqrt (v3.sq_mag
              ((simulation.update_sim_block simulation.lone_boid 1 0 1).velocities 0)) <
            simulation.g_min_vel * (1e-3))) :=
  ⟨⟨le_refl 0, by decide, by decide, by decide⟩,
    velocity_envelope_or_subguard simulation.lone_boid 1 0 1 0 (le_refl 0) (by decide)
      (by decide) (by decide)⟩

/-! ### Claim C6 — zero velocity under the minimum-speed clamp -/

/-- Claim C6: if an agent's velocity is the zero vector when the
minimum-speed clamp applies, the velocity the update writes is exactly
zero: the compiled `v3::normalize` hits its `len_sq < 1e-6` guard (which
`len_sq = 0` satisfies) and returns the zero vector rather than dividing by
zero, and scaling by `g_min_vel` keeps it zero.  (In this exact-real
embedding no NaN can arise; the guard is precisely what prevents the `0/0`
lanes in the float code.) -/
theorem zero_velocity_min_clamp_stays_zero (d : simulation.sim_data) (dt : ℝ) (i : ℕ)
    (h : simulation.velocity_pre_min d dt i = 0) :
    simulation.boid_velocity_update d dt i = 0 :=
  boid_velocity_update_zero_of_pre_zero d dt i h

/-- Witness for `zero_velocity_min_clamp_stays_zero` at the lone isolated
boid, whose pre-clamp velocity evaluates to zero. -/
theorem zero_velocity_min_clamp_stays_zero_witness :
    simulation.velocity_pre_min simulation.lone_boid 1 0 = 0 ∧
      simulation.boid_velocity_update simulation.lone_boid 1 0 = 0 :=
  ⟨lone_boid_pre_min_zero,
    zero_velocity_min_clamp_stays_zero simulation.lone_boid 1 0 lone_boid_pre_min_zero⟩

/-! ### Claim C10 — the position pass is unconditional -/

/-- Claim C10: for every chunk `[a, b)` and every agent `i` in it that the
first pass skips (no `SIM_COMPONENT_SPATIAL` component, or no seek/flee/
align behaviour bit), `update_sim_block` leaves the velocity untouched and
still advances the position by exactly `velocity · dt` (the `w` lane is
preserved). -/
theorem second_pass_unconditional (d : simulation.sim_data) (dt : ℝ) (a b i : ℕ)
    (h1 : a ≤ i) (h2 : i < b)
    (h : d.components i &&& simulation.SIM_COMPONENT_SPATIAL = 0 ∨
      d.behaviours i &&& simulation.behavior_mask = 0) :
    (simulation.update_sim_block d dt a b).velocities i = d.velocities i ∧
      (simulation.update_sim_block d dt a b).positions i =
        ⟨(d.positions i).x + (d.velocities i).x * dt,
         (d.positions i).y + (d.velocities i).y * dt,
         (d.positions i).z + (d.velocities i).z * dt,
         (d.positions i).w⟩ := by
  unfold simulation.update_sim_block
  have hv1 : (simulation.run_phase1 dt d a (b - a)).velocities i = d.velocities i :=
    run_phase1_velocities_skip dt (b - a) d a i h
  constructor
  · rw [run_phase2_velocities dt (b - a) _ a]
    exact hv1
  · rw [run_phase2_positions_mem dt (b - a) _ a i h1 (by omega)]
    rw [run_phase1_positions dt (b - a) d a, hv1]

/-- Witness for `second_pass_unconditional`: the drifting agent has
`SIM_COMPONENT_SPATIAL` but no behaviour bit; its velocity survives and its
position advances by `velocity · dt`. -/
theorem second_pass_unconditional_witness :
    ((0 : ℕ) ≤ 0 ∧ (0 : ℕ) < 1 ∧
        simulation.drifting_agent.behaviours 0 &&& simulation.behavior_mask = 0) ∧
      ((simulation.update_sim_block simulation.drifting_agent 1 0 1).velocities 0 =
          simulation.drifting_agent.velocities 0 ∧
        (simulation.update_sim_block simulation.drifting_agent 1 0 1).positions 0 =
          ⟨(simulation.drifting_agent.positions 0).x +
              (simulation.drifting_agent.velocities 0).x * 1,
           (simulation.drifting_agent.positions 0).y +
              (simulation.drifting_agent.velocities 0).y * 1,
           (simulation.drifting_agent.positions 0).z +
              (simulation.drifting_agent.velocities 0).z * 1,
           (simulation.drifting_agent.positions 0).w⟩) :=
  ⟨⟨le_refl 0, by decide, by decide⟩,
    second_pass_unconditional simulation.drifting_agent 1 0 1 0 (le_refl 0) (by decide)
      (Or.inr (by decide))⟩

/-! ### Claim C3 — the integration step is `time_step`, not `delta_time`

`sim_work_func` calls `update_sim_block(data, data->time_step, …)`: the
`delta_time` handed to `update_sim` only advances `current_time`, while the
two passes integrate with the `time_step` FIELD (0.016 from `init_sim`).
`dt_probe` has two inert agents (no components), so phase 1 skips both and
phase 2 is pure `position += velocity · dt`; agent 0 moves at unit speed,
so its x-advance reveals the dt actually used. -/

/-- Claim C3, failing input: `update_sim dt_probe 1 1` — `delta_time = 1`,
but `dt_probe.time_step = 0.016`.  Agent 0 (velocity `⟨1,0,0⟩`, no
behaviours, from position `⟨0,0,0,1⟩`) ends at `x = 0.016 = v·time_step`,
not at `x = 1 = v·delta_time` as the claim requires; the two outcomes
differ. -/
theorem update_sim_ignores_delta_time :
    (simulation.update_sim simulation.dt_probe 1 1).positions 0 = ⟨0.016, 0, 0, 1⟩ ∧
      (⟨0.016, 0, 0, 1⟩ : vec4 ℝ) ≠ ⟨1, 0, 0, 1⟩ := by
  constructor
  · have hchunks : simulation.update_sim_chunks 2 1 = [(0, 2)] := by decide
    show (simulation.run_chunks ({ simulation.dt_probe with
        current_time := simulation.dt_probe.current_time + 1,
        num_iterations := simulation.dt_probe.num_iterations + 1 })
        simulation.dt_probe.time_step (simulation.update_sim_chunks 2 1)).positions 0 = _
    rw [hchunks]
    show (simulation.run_phase2 simulation.dt_probe.time_step
        (simulation.run_phase1 simulation.dt_probe.time_step
          ({ simulation.dt_probe with
            current_time := simulation.dt_probe.current_time + 1,
            num_iterations := simulation.dt_probe.num_iterations + 1 }) 0 (2 - 0))
        0 (2 - 0)).positions 0 = _
    rw [run_phase1_all_skip simulation.dt_probe.time_step (2 - 0) _ 0
      (fun j _ _ => Or.inl (by norm_num [simulation.dt_probe]))]
    rw [run_phase2_positions_mem simulation.dt_probe.time_step (2 - 0) _ 0 0
      (le_refl 0) (by omega)]
    norm_num [simulation.dt_probe]
  · simp only [ne_eq, vec4.mk.injEq]
    norm_num

/-! ### Claim C4 — is the chunked two-pass update snapshot-equivalent?

WITHIN one chunk it is: phase 1 writes no positions, so every
velocity update of the chunk reads the same pre-update snapshot, and the
block coincides with the spec's single-snapshot reference.  ACROSS chunks
it is not: each chunk's phase 2 rewrites its positions before later chunks
run phase 1, so in the FIFO single-thread schedule (a legal schedule of the
submitted tasks) agent 48 of `two_chunk_pair` reads agent 0's ALREADY MOVED
position and seeks in the opposite direction from the reference. -/

set_option maxRecDepth 8000 in
/-- Claim C4, counterexample: `two_chunk_pair` (96 agents, live pair 0/48
facing each other 0.1 apart) is split by `update_sim` into chunks `[0,48)`
and `[48,96)`; the chunked update ends with agent 48 at velocity
`⟨0.15,0,0⟩` (towards positive x, chasing agent 0's new position) while the
single-snapshot reference ends with `⟨-0.15,0,0⟩` (towards negative x,
agent 0's old position), and the two differ. -/
theorem chunked_update_not_snapshot_equivalent :
    simulation.update_sim_chunks simulation.two_chunk_pair.num_entities 4 =
        [(0, 48), (48, 96)] ∧
      (simulation.update_sim simulation.two_chunk_pair 1 4).velocities 48 = ⟨0.15, 0, 0⟩ ∧
      (simulation.snapshot_reference_update simulation.two_chunk_pair 1 0 96).velocities 48 =
        ⟨-0.15, 0, 0⟩ ∧
      (⟨0.15, 0, 0⟩ : vec3 ℝ) ≠ (⟨-0.15, 0, 0⟩ : vec3 ℝ) := by
  have hchunks : simulation.update_sim_chunks simulation.two_chunk_pair.num_entities 4 =
      [(0, 48), (48, 96)] := by
    show simulation.update_sim_chunks 96 4 = _
    decide
  refine ⟨hchunks, ?_, pair_snapshot_eval, ?_⟩
  · show (simulation.run_chunks ({ simulation.two_chunk_pair with
        current_time := simulation.two_chunk_pair.current_time + 1,
        num_iterations := simulation.two_chunk_pair.num_iterations + 1 })
        simulation.two_chunk_pair.time_step
        (simulation.update_sim_chunks simulation.two_chunk_pair.num_entities 4)).velocities 48
        = _
    rw [hchunks]
    show (simulation.update_sim_block (simulation.update_sim_block
        ({ simulation.two_chunk_pair with
          current_time := simulation.two_chunk_pair.current_time + 1,
          num_iterations := simulation.two_chunk_pair.num_iterations + 1 })
        1 0 48) 1 48 96).velocities 48 = _
    exact pair_chunked_eval _ rfl rfl rfl rfl rfl
  · simp only [ne_eq, vec3.mk.injEq]
    norm_num

/-- Claim C4, amended: the snapshot property holds PER CHUNK, not per
update: phase 1 of a block writes no positions, and a block over `[a, b)`
equals the spec's reference update that reads every position through the
snapshot taken at the block's start; across chunks of one `update_sim` the
property fails (see the counterexample). -/
theorem two_pass_snapshot_per_chunk (d : simulation.sim_data) (dt : ℝ) (a b : ℕ) :
    (simulation.run_phase1 dt d a (b - a)).positions = d.positions ∧
      simulation.update_sim_block d dt a b = simulation.snapshot_reference_update d dt a b :=
  ⟨run_phase1_positions dt (b - a) d a, block_eq_snapshot d dt a b⟩

/-! ### Claim C7 — the seek accumulation skips coincident neighbours

Each rule test in `boid_process_neighbors` is guarded by
`distance_squared > 0`, so a distinct neighbour exactly coincident with the
agent (`d² == 0`) is accumulated into nothing, contrary to the claim that
every `j ≠ i` with `d² < r_seek²` contributes. -/

/-- Claim C7, counterexample: agent 1 of `coincident_pair` is a distinct
neighbour of agent 0 (`1 ≠ 0`) at squared distance `0 < r_seek²`, yet after
the accumulation pass `num_seek_neighbours` is `0`, not `1` — nothing was
accumulated. -/
theorem coincident_neighbor_not_counted :
    (1 : ℕ) ≠ 0 ∧
      v3.dot ((simulation.coincident_pair.positions 1).xyz -
          (simulation.coincident_pair.positions 0).xyz)
        ((simulation.coincident_pair.positions 1).xyz -
          (simulation.coincident_pair.positions 0).xyz) = 0 ∧
      (0 : ℝ) < simulation.seek_radius * simulation.seek_radius ∧
      (simulation.neighbor_accum_of 0 simulation.coincident_pair [1] simulation.seek_radius
        simulation.flee_radius simulation.align_radius).num_seek_neighbours = 0 := by
  refine ⟨by decide, ?_, by norm_num [simulation.seek_radius], ?_⟩
  · norm_num [simulation.coincident_pair, v3.dot]
  · simp only [simulation.neighbor_accum_of, simulation.process_neighbor_step,
      simulation.seek_branch, simulation.flee_branch, simulation.align_branch,
      simulation.coincident_pair, List.foldl, v3.dot, vec4.xyz_def, vec3.sub_def]
    norm_num

/-- Claim C7, amended: the single-pass accumulation counts, and sums the
differences `(p_j − p_i)` of, exactly the neighbours `j ≠ i` whose squared
distance satisfies `0 < d² < r_seek²`: the `distance_squared > 0` guard
additionally excludes distinct neighbours exactly coincident with agent `i`
(d² = 0), which contribute to neither `seek_sum` nor `n_seek`. -/
theorem seek_accumulation_characterized (entity_id : ℕ) (d : simulation.sim_data)
    (neighbour_ids : List ℕ) (sr fr ar : ℝ) :
    (simulation.neighbor_accum_of entity_id d neighbour_ids sr fr ar).num_seek_neighbours =
        neighbour_ids.countP (fun j => decide (j ≠ entity_id ∧
          v3.dot ((d.positions j).xyz - (d.positions entity_id).xyz)
              ((d.positions j).xyz - (d.positions entity_id).xyz) > 0 ∧
          v3.dot ((d.positions j).xyz - (d.positions entity_id).xyz)
              ((d.positions j).xyz - (d.positions entity_id).xyz) < sr * sr)) ∧
      (simulation.neighbor_accum_of entity_id d neighbour_ids sr fr ar).seek_acc =
        (neighbour_ids.filter (fun j => decide (j ≠ entity_id ∧
            v3.dot ((d.positions j).xyz - (d.positions entity_id).xyz)
                ((d.positions j).xyz - (d.positions entity_id).xyz) > 0 ∧
            v3.dot ((d.positions j).xyz - (d.positions entity_id).xyz)
                ((d.positions j).xyz - (d.positions entity_id).xyz) < sr * sr))).foldl
          (fun acc j => acc + ((d.positions j).xyz - (d.positions entity_id).xyz)) 0 := by
  unfold simulation.neighbor_accum_of
  constructor
  · rw [neighbor_fold_num_seek]
    exact Nat.zero_add _
  · rw [neighbor_fold_seek_acc]
    exact vec3_zero_add _

end BoidNode
